import Mathlib

/-!
Verification of the physics and orientation core of a small
explorable-planets game (Three.js/TypeScript).  The definitions below are a
shallow embedding over the reals of the `Physics` class
(environment classification, gravity accumulation, collision resolution,
motion integration) and of the alignment-factor computation of
`PlayerController.alignWithSurface`.  JavaScript numbers are modelled as
real numbers; a JS `NaN` arising from a missing `radius` parameter is
modelled by propagating `Option` and by the fact that every JS comparison
against `NaN` is false; a JS `undefined` optional field is `none`.
-/

namespace Planetoids

open Classical

noncomputable section

/-- Shallow embedding of `THREE.Vector3`: three real components. -/
structure Vec3 where
  x : ℝ
  y : ℝ
  z : ℝ

/-- Componentwise vector addition (`THREE.Vector3.add`). -/
def Vec3.add (a b : Vec3) : Vec3 := ⟨a.x + b.x, a.y + b.y, a.z + b.z⟩

/-- Componentwise vector subtraction (`THREE.Vector3.sub` / `subVectors`). -/
def Vec3.sub (a b : Vec3) : Vec3 := ⟨a.x - b.x, a.y - b.y, a.z - b.z⟩

/-- Scalar multiplication (`THREE.Vector3.multiplyScalar`). -/
def Vec3.smul (a : Vec3) (s : ℝ) : Vec3 := ⟨a.x * s, a.y * s, a.z * s⟩

/-- Componentwise negation (`THREE.Vector3.negate`). -/
def Vec3.neg (a : Vec3) : Vec3 := ⟨-a.x, -a.y, -a.z⟩

/-- Dot product (`THREE.Vector3.dot`). -/
def Vec3.dot (a b : Vec3) : ℝ := a.x * b.x + a.y * b.y + a.z * b.z

/-- Squared Euclidean length (`THREE.Vector3.lengthSq`). -/
def Vec3.lengthSq (a : Vec3) : ℝ := a.dot a

/-- Euclidean length (`THREE.Vector3.length`). -/
def Vec3.length (a : Vec3) : ℝ := Real.sqrt a.lengthSq

/-- Distance between two points (`THREE.Vector3.distanceTo`). -/
def Vec3.distanceTo (a b : Vec3) : ℝ := (a.sub b).length

/-- The zero vector. -/
def Vec3.zero : Vec3 := ⟨0, 0, 0⟩

/-- Normalization (`THREE.Vector3.normalize` is `divideScalar (length || 1)`:
a zero vector is left unchanged, any other vector is scaled to unit length). -/
def Vec3.normalize (a : Vec3) : Vec3 :=
  if a.length = 0 then a else a.smul (1 / a.length)

/-- Cross product (`THREE.Vector3.crossVectors`). -/
def Vec3.cross (a b : Vec3) : Vec3 :=
  ⟨a.y * b.z - a.z * b.y, a.z * b.x - a.x * b.z, a.x * b.y - a.y * b.x⟩

/-- Projection of `a` onto the vector `v` (`THREE.Vector3.projectOnVector`,
which returns the zero vector when `v` has zero squared length). -/
def Vec3.projectOnVector (a v : Vec3) : Vec3 :=
  if v.lengthSq = 0 then Vec3.zero else v.smul (a.dot v / v.lengthSq)

/-- Projection of `a` onto the plane of normal `n`
(`THREE.Vector3.projectOnPlane`). -/
def Vec3.projectOnPlane (a n : Vec3) : Vec3 := a.sub (a.projectOnVector n)

/-- A celestial body: a `THREE.Mesh` whose sphere geometry carries an optional
`parameters.radius` (`none` models a geometry that lacks a radius, which in
JavaScript makes every arithmetic result involving it `NaN`), plus the
`userData.isSun` flag. -/
structure Planet where
  position : Vec3
  radius : Option ℝ
  isSun : Bool

/-- The atmosphere zone names used by `checkPlayerEnvironment` (the source
stores them as strings: deep-space, surface, low-atmosphere, atmosphere,
upper-atmosphere, and the ad-hoc noclip zone). -/
inductive Zone where
  | deepSpace
  | surface
  | lowAtmosphere
  | atmosphere
  | upperAtmosphere
  | noclip
deriving DecidableEq

/-- The persistent zone-hysteresis state of the `Physics` instance:
`lastZone` (initially `null`) and the `zoneSwitchDelay` counter. -/
structure ZoneState where
  lastZone : Option Zone
  zoneSwitchDelay : ℕ
deriving DecidableEq

/-- `this.gravity` (constructor, part_001 line 23). -/
def gravity : ℝ := 9.8

/-- `this.moveSpeed` (line 25). -/
def moveSpeed : ℝ := 5

/-- `this.jetpackForce` (line 26). -/
def jetpackForce : ℝ := 20

/-- `this.inSpaceDrag` (line 28). -/
def inSpaceDrag : ℝ := 0.001

/-- `this.inAtmosphereDrag` (line 29). -/
def inAtmosphereDrag : ℝ := 0.01

/-- `this.collisionRadius` (line 30), the value the caller passes to
`handlePlanetCollisions`. -/
def collisionRadius : ℝ := 2

/-- `this.gravitationalConstant` (line 31). -/
def gravitationalConstant : ℝ := 100

/-- `this.alignmentSpeed` (line 34). -/
def alignmentSpeed : ℝ := 0.05

/-- `this.alignmentDistance` (line 35). -/
def alignmentDistance : ℝ := 50

/-- `this.atmosphereRatio` (line 38). -/
def atmosphereRatio : ℝ := 1.25

/-- `this.outerAtmosphereRatio` (line 39). -/
def outerAtmosphereRatio : ℝ := 1.5

/-- `this.zoneHysteresis` (line 43). -/
def zoneHysteresis : ℝ := 1.0

/-- The local constant `groundThreshold` of `checkPlayerEnvironment`
(line 63). -/
def groundThreshold : ℝ := 0.8

/-- The local constant `groundCollisionRadius` of `handlePlanetCollisions`
(line 208). -/
def groundCollisionRadius : ℝ := 0.5

/-- One step of the `forEach` accumulation inside `getNearestPlanet`
(lines 143-150).  The accumulator holds the current nearest planet with its
surface distance, `none` standing for `(null, Infinity)`.  A planet whose
geometry lacks a radius yields a `NaN` distance, and `NaN < minDistance`
is false in JavaScript, so the accumulator is left unchanged. -/
def nearestStep (position : Vec3) (acc : Option (Planet × ℝ)) (planet : Planet) :
    Option (Planet × ℝ) :=
  match planet.radius with
  | none => acc
  | some r =>
    let distance := position.distanceTo planet.position - r
    match acc with
    | none => some (planet, distance)
    | some (p, m) => if distance < m then some (planet, distance) else some (p, m)

/-- `Physics.getNearestPlanet` (lines 139-153): nearest planet by
surface distance; `none` models the `(null, Infinity)` result. -/
def getNearestPlanet (position : Vec3) (planets : List Planet) :
    Option (Planet × ℝ) :=
  planets.foldl (nearestStep position) none

/-- The per-body term accumulated by `getGravityForce` (lines 160-191).
A body whose geometry has no radius parameter, or a falsy (zero) radius, is
skipped (`return` inside `forEach`), as is a body closer than `0.1` to the
query position; a skipped body contributes the zero vector. -/
def gravityContribution (position : Vec3) (mass : ℝ) (body : Planet) : Vec3 :=
  match body.radius with
  | none => Vec3.zero
  | some r =>
    if r = 0 then Vec3.zero
    else
      let direction := (body.position.sub position).normalize
      let distance := position.distanceTo body.position
      if distance ≤ 0.1 then Vec3.zero
      else
        let bodyMass := if body.isSun then (50 : ℝ) else r
        let clampedDistance := max distance (r * 0.5)
        let force := gravitationalConstant * (bodyMass * mass) /
          (clampedDistance * clampedDistance)
        let scaledForce := min force 20
        direction.smul scaledForce

/-- `Physics.getGravityForce` (lines 156-194): vector sum of the per-body
contributions. -/
def getGravityForce (position : Vec3) (celestialBodies : List Planet)
    (mass : ℝ) : Vec3 :=
  celestialBodies.foldl
    (fun acc body => acc.add (gravityContribution position mass body)) Vec3.zero

/-- `Physics.calculateUpDirection` (lines 249-259). -/
def calculateUpDirection (playerPosition : Vec3) (planets : List Planet) : Vec3 :=
  match getNearestPlanet playerPosition planets with
  | none => ⟨0, 1, 0⟩
  | some (planet, distance) =>
    if distance > alignmentDistance then ⟨0, 1, 0⟩
    else (playerPosition.sub planet.position).normalize

/-- The `CollisionResult` record (types file). -/
structure CollisionResult where
  onGround : Bool
  collidedPlanet : Option Planet
  surfaceNormal : Option Vec3

/-- The `for … break` scan of `handlePlanetCollisions` (lines 211-243),
returning the collision record together with the corrected position and
velocity (the source mutates them in place).  A planet whose geometry lacks
a radius gives a `NaN` surface distance, the `<` test is false, and the scan
moves on. -/
def collideScan (pos vel : Vec3) : List Planet → CollisionResult × Vec3 × Vec3
  | [] => ({ onGround := false, collidedPlanet := none, surfaceNormal := none },
      pos, vel)
  | planet :: rest =>
    match planet.radius with
    | none => collideScan pos vel rest
    | some planetRadius =>
      let distanceToCenter := pos.distanceTo planet.position
      let distanceToSurface := distanceToCenter - planetRadius
      if distanceToSurface < groundCollisionRadius then
        let normal := (pos.sub planet.position).normalize
        let correctionDistance := groundCollisionRadius - distanceToSurface
        let posC := pos.add (normal.smul correctionDistance)
        let d := vel.dot normal
        let velC := if d < 0 then (vel.sub (normal.smul d)).smul 0.8 else vel
        ({ onGround := true, collidedPlanet := some planet,
           surfaceNormal := some normal }, posC, velC)
      else collideScan pos vel rest

/-- `Physics.handlePlanetCollisions` (lines 197-246).  The `collisionRadius`
parameter is accepted but never read: the body uses the internal constant
`groundCollisionRadius = 0.5` instead. -/
def handlePlanetCollisions (playerPosition playerVelocity : Vec3)
    (planets : List Planet) (collisionRadius : ℝ) :
    CollisionResult × Vec3 × Vec3 :=
  collideScan playerPosition playerVelocity planets

/-- The hysteresis ground test of `checkPlayerEnvironment` (lines 71-79). -/
def onGroundCheck (lastZone : Option Zone) (distance : ℝ) : Bool :=
  if lastZone = some Zone.surface then
    decide (distance < groundThreshold + zoneHysteresis)
  else
    decide (distance < groundThreshold)

/-- The zone proposed by `checkPlayerEnvironment` before the switch-delay
logic runs (lines 58-108), as a function of the stored `lastZone`, the
nearest surface distance and the nearest planet's radius. -/
def proposedZone (lastZone : Option Zone) (distance planetRadius : ℝ) : Zone :=
  let atmosphereThreshold := planetRadius * atmosphereRatio
  let outerAtmosphereThreshold := planetRadius * outerAtmosphereRatio
  let inUpperAtmosphere :=
    decide (distance ≤ outerAtmosphereThreshold ∧ distance > atmosphereThreshold)
  let inAtmosphere := decide (distance ≤ atmosphereThreshold)
  if onGroundCheck lastZone distance then Zone.surface
  else if distance < atmosphereThreshold * 0.3 then
    if lastZone = some Zone.surface ∧
        distance < groundThreshold + zoneHysteresis * 3 then Zone.surface
    else Zone.lowAtmosphere
  else if inAtmosphere then Zone.atmosphere
  else if inUpperAtmosphere then Zone.upperAtmosphere
  else Zone.deepSpace

/-- The zone-switch-delay logic of `checkPlayerEnvironment` (lines 110-125):
a proposed zone differing from a non-null `lastZone` bumps the counter and is
rejected until the counter reaches 3; the function returns the zone actually
reported together with the updated stored state. -/
def applyZoneDelay (st : ZoneState) (proposed : Zone) : Zone × ZoneState :=
  match st.lastZone with
  | some last =>
    if last ≠ proposed then
      let delay := st.zoneSwitchDelay + 1
      if delay < 3 then (last, { lastZone := some last, zoneSwitchDelay := delay })
      else (proposed, { lastZone := some proposed, zoneSwitchDelay := 0 })
    else (proposed, { lastZone := some proposed, zoneSwitchDelay := 0 })
  | none => (proposed, { lastZone := some proposed, zoneSwitchDelay := 0 })

/-- The `EnvironmentResult` record (types file).  The TypeScript optional
fields `inTransition?`, `inAtmosphere?` and `transitionFactor?` are `Option`s:
the early deep-space return leaves them `undefined`. -/
structure EnvironmentResult where
  inSpace : Bool
  inTransition : Option Bool
  inAtmosphere : Option Bool
  onGround : Bool
  nearest : Option (Planet × ℝ)
  atmosphereZone : Zone
  transitionFactor : Option ℝ

/-- `Physics.checkPlayerEnvironment` (lines 48-136), as a state-passing
function over the instance fields `lastZone` / `zoneSwitchDelay`.  When no
planet exists the early return (lines 51-56) fires: it reports deep space,
leaves the optional fields unset and does not touch the stored state. -/
def checkPlayerEnvironment (st : ZoneState) (playerPosition : Vec3)
    (planets : List Planet) : EnvironmentResult × ZoneState :=
  match getNearestPlanet playerPosition planets with
  | none =>
    ({ inSpace := true, inTransition := none, inAtmosphere := none,
       onGround := false, nearest := none, atmosphereZone := Zone.deepSpace,
       transitionFactor := none }, st)
  | some (planet, distance) =>
    let planetRadius := planet.radius.getD 0
    let atmosphereThreshold := planetRadius * atmosphereRatio
    let outerAtmosphereThreshold := planetRadius * outerAtmosphereRatio
    let inDeepSpace := decide (distance > outerAtmosphereThreshold)
    let inUpperAtmosphere :=
      decide (distance ≤ outerAtmosphereThreshold ∧ distance > atmosphereThreshold)
    let inAtmosphereB := decide (distance ≤ atmosphereThreshold)
    let onGround := onGroundCheck st.lastZone distance
    let transitionFactor : ℝ :=
      if inUpperAtmosphere then
        (distance - atmosphereThreshold) /
          (outerAtmosphereThreshold - atmosphereThreshold)
      else if inDeepSpace then 1 else 0
    let z := applyZoneDelay st (proposedZone st.lastZone distance planetRadius)
    ({ inSpace := inDeepSpace, inTransition := some inUpperAtmosphere,
       inAtmosphere := some inAtmosphereB, onGround := onGround,
       nearest := some (planet, distance), atmosphereZone := z.1,
       transitionFactor := some transitionFactor }, z.2)

/-- The player fields read and written by the physics step (player.ts
constructor: position, velocity, onGround, fuel, stamina and its rates). -/
structure PlayerState where
  position : Vec3
  velocity : Vec3
  onGround : Bool
  fuel : ℝ
  stamina : ℝ
  maxStamina : ℝ
  staminaDrainRate : ℝ
  staminaRechargeRate : ℝ
  isSprinting : Bool

/-- The `ControlsState` record (types file). -/
structure ControlsState where
  moveForward : Bool
  moveBackward : Bool
  moveLeft : Bool
  moveRight : Bool
  jump : Bool
  jetpack : Bool
  sprint : Bool
  downThrusters : Bool

/-- Abstraction of `THREE.Camera` by the two derived vectors the physics code
reads from it: `forward` is the result of `camera.getWorldDirection` (a unit
vector for a real camera) and `quatUp` is `(0,1,0)` rotated by
`camera.quaternion`. -/
structure Camera where
  forward : Vec3
  quatUp : Vec3

/-- The single field of `GameState` the physics step reads. -/
structure GameState where
  noclip : Bool

/-- `Physics.updateStamina` (lines 511-529). -/
def updateStamina (player : PlayerState) (controls : ControlsState)
    (deltaTime : ℝ) : PlayerState :=
  if controls.sprint ∧ player.stamina > 0 then
    let s := player.stamina - player.staminaDrainRate * deltaTime
    { player with stamina := if s < 0 then 0 else s }
  else if ¬controls.sprint ∨ player.stamina ≤ 0 then
    let s := player.stamina + player.staminaRechargeRate * deltaTime
    let sClamped := if s > player.maxStamina then player.maxStamina else s
    { player with
      stamina := sClamped,
      isSprinting := if sClamped ≤ 0 then false else player.isSprinting }
  else player

/-- `Physics.calculateMoveDirection` (lines 531-560).  The `inSpace`
parameter is accepted but unused, as in the source. -/
def calculateMoveDirection (controls : ControlsState) (camera : Camera)
    (inSpace onGround : Bool) : Vec3 :=
  let forward := camera.forward
  let right := (forward.cross ⟨0, 1, 0⟩).normalize
  let fr :=
    if onGround then
      let upVector := camera.quatUp
      let f := (forward.projectOnPlane upVector).normalize
      (f, (f.cross upVector).normalize)
    else (forward, right)
  let d := Vec3.zero
  let d := if controls.moveForward then d.add fr.1 else d
  let d := if controls.moveBackward then d.sub fr.1 else d
  let d := if controls.moveRight then d.add fr.2 else d
  let d := if controls.moveLeft then d.sub fr.2 else d
  d

/-- The noclip branch of `updatePlayerPhysics` (lines 275-296): kinematic
camera-relative movement at `moveSpeed * 100` (tripled under sprint), then
velocity zeroed and `onGround` cleared. -/
def noclipUpdate (player : PlayerState) (controls : ControlsState)
    (camera : Camera) (deltaTime : ℝ) : PlayerState :=
  let moveDirection := calculateMoveDirection controls camera true false
  let player :=
    if moveDirection.length > 0 then
      let noclipSpeed := moveSpeed * 100
      let noclipSpeed := if controls.sprint then noclipSpeed * 3 else noclipSpeed
      { player with position :=
          player.position.add (moveDirection.normalize.smul (noclipSpeed * deltaTime)) }
    else player
  { player with velocity := Vec3.zero, onGround := false }

/-- The drag coefficient chosen by zone (lines 322-350). -/
def dragCoefficientFor (environment : EnvironmentResult) : ℝ :=
  if environment.inSpace then inSpaceDrag
  else if environment.inTransition.getD false then
    inSpaceDrag + (inAtmosphereDrag - inSpaceDrag) *
      (1 - environment.transitionFactor.getD 0)
  else if ¬environment.onGround then
    let planetRadius :=
      match environment.nearest with
      | some (p, _) => p.radius.getD 0
      | none => 100
    let normalizedAltitude :=
      match environment.nearest with
      | some (_, d) => min 1 (d / (planetRadius * 0.25))
      | none => 1
    inSpaceDrag + (inAtmosphereDrag - inSpaceDrag) * (1 - normalizedAltitude * 0.9)
  else inAtmosphereDrag

/-- Application of drag to the velocity (line 353). -/
def applyDrag (environment : EnvironmentResult) (deltaTime : ℝ)
    (player : PlayerState) : PlayerState :=
  let factor := 1 - min (dragCoefficientFor environment) (0.05 * deltaTime / 0.016)
  { player with velocity := player.velocity.smul factor }

/-- Camera-relative movement input with zone speed blending and the sprint
multiplier (lines 356-376). -/
def applyMovement (environment : EnvironmentResult) (controls : ControlsState)
    (camera : Camera) (deltaTime : ℝ) (player : PlayerState) : PlayerState :=
  let moveDirection :=
    calculateMoveDirection controls camera (!environment.onGround)
      environment.onGround
  if moveDirection.length > 0 then
    let spaceSpeedFactor : ℝ := 0.5
    let groundSpeedFactor : ℝ := 1.0
    let speedFactor :=
      if environment.inTransition.getD false then
        groundSpeedFactor + (spaceSpeedFactor - groundSpeedFactor) *
          (environment.transitionFactor.getD 0)
      else if environment.inSpace then spaceSpeedFactor else groundSpeedFactor
    let speedFactor :=
      if controls.sprint ∧ player.stamina > 0 ∧ ¬environment.inSpace then
        speedFactor * 1.5
      else speedFactor
    let step := moveDirection.normalize.smul (moveSpeed * deltaTime * speedFactor)
    { player with velocity := player.velocity.add step }
  else player

/-- The per-zone gravity vector (lines 378-413), already scaled by
`deltaTime`. -/
def gravityVectorFor (environment : EnvironmentResult)
    (celestialBodies : List Planet) (position : Vec3) (deltaTime : ℝ) : Vec3 :=
  if environment.inSpace ∧ ¬(environment.inTransition.getD false) then
    (getGravityForce position celestialBodies 1).smul deltaTime
  else if environment.inTransition.getD false then
    let orbitalGravity := (getGravityForce position celestialBodies 1).smul deltaTime
    let dirGravity :=
      match environment.nearest with
      | some (p, _) => ((p.position.sub position).normalize).smul (gravity * deltaTime)
      | none => ⟨0, -(gravity * deltaTime), 0⟩
    (orbitalGravity.smul (environment.transitionFactor.getD 0)).add
      (dirGravity.smul (1 - environment.transitionFactor.getD 0))
  else
    match environment.nearest with
    | some (p, _) => ((p.position.sub position).normalize).smul (gravity * deltaTime)
    | none => ⟨0, -(gravity * deltaTime), 0⟩

/-- Gravity is added to the velocity only while airborne (lines 415-418). -/
def applyGravity (environment : EnvironmentResult)
    (celestialBodies : List Planet) (deltaTime : ℝ)
    (player : PlayerState) : PlayerState :=
  if ¬environment.onGround then
    let g := gravityVectorFor environment celestialBodies player.position deltaTime
    { player with velocity := player.velocity.add g }
  else player

/-- The jetpack block (lines 420-440): thrust along the local up (within 500
units of a planet) or the look direction, fuel drained at 20 per second and
clamped at zero. -/
def applyJetpack (environment : EnvironmentResult) (controls : ControlsState)
    (camera : Camera) (planets : List Planet) (deltaTime : ℝ)
    (player : PlayerState) : PlayerState :=
  if controls.jetpack ∧ player.fuel > 0 then
    let jetpackDirection :=
      match environment.nearest with
      | some (_, d) =>
        if d < 500 then calculateUpDirection player.position planets
        else camera.forward
      | none => camera.forward
    let v := player.velocity.add (jetpackDirection.smul (jetpackForce * deltaTime))
    let f := player.fuel - 20 * deltaTime
    { player with velocity := v, fuel := if f < 0 then 0 else f }
  else player

/-- The down-thruster block (lines 442-464): thrust opposite to the local up
or the look direction at `0.8` of the jetpack force, fuel drained at 15 per
second and clamped at zero. -/
def applyDownThrusters (environment : EnvironmentResult)
    (controls : ControlsState) (camera : Camera) (planets : List Planet)
    (deltaTime : ℝ) (player : PlayerState) : PlayerState :=
  if controls.downThrusters ∧ player.fuel > 0 then
    let downDirection :=
      match environment.nearest with
      | some (_, d) =>
        if d < 500 then (calculateUpDirection player.position planets).neg
        else camera.forward.neg
      | none => camera.forward.neg
    let v := player.velocity.add
      (downDirection.smul (jetpackForce * 0.8 * deltaTime))
    let f := player.fuel - 15 * deltaTime
    { player with velocity := v, fuel := if f < 0 then 0 else f }
  else player

/-- Collision resolution, position integration and ground friction
(lines 466-496). -/
def applyCollision (planets : List Planet) (deltaTime : ℝ)
    (player : PlayerState) : CollisionResult × PlayerState :=
  let r := handlePlanetCollisions player.position player.velocity planets
    collisionRadius
  let p := { player with position := r.2.1, velocity := r.2.2 }
  let p := { p with position := p.position.add (p.velocity.smul deltaTime) }
  let p := { p with onGround := r.1.onGround }
  let p :=
    if p.onGround then
      match r.1.surfaceNormal with
      | some normal =>
        let d := p.velocity.dot normal
        let normalComponent := normal.smul d
        let tangentialComponent := p.velocity.sub normalComponent
        { p with velocity := tangentialComponent.smul 0.9 }
      | none => p
    else p
  (r.1, p)

/-- The alignment diagnostics record returned by `updatePlayerPhysics`. -/
structure AlignmentInfo where
  upDirection : Vec3
  aligned : Option Bool
  alignmentDistance : Option ℝ
  alignmentSpeed : Option ℝ

/-- The `PhysicsResult` record (types file). -/
structure PhysicsResult where
  environment : EnvironmentResult
  collision : CollisionResult
  alignment : AlignmentInfo

/-- `Physics.updatePlayerPhysics` (lines 262-508), as a function from the
player state, inputs and stored zone state to the updated player state,
updated zone state and the returned `PhysicsResult`. -/
def updatePlayerPhysics (player : PlayerState) (controls : ControlsState)
    (deltaTime : ℝ) (planets : List Planet) (sun : Option Planet)
    (camera : Camera) (gameState : GameState) (st : ZoneState) :
    PlayerState × ZoneState × PhysicsResult :=
  let player := updateStamina player controls deltaTime
  if gameState.noclip then
    let envR : EnvironmentResult :=
      { inSpace := true, inTransition := none, inAtmosphere := none,
        onGround := false, nearest := none, atmosphereZone := Zone.noclip,
        transitionFactor := none }
    let collR : CollisionResult :=
      { onGround := false, collidedPlanet := none, surfaceNormal := none }
    let alignR : AlignmentInfo :=
      { upDirection := ⟨0, 1, 0⟩, aligned := some false,
        alignmentDistance := none, alignmentSpeed := none }
    (noclipUpdate player controls camera deltaTime, st,
     { environment := envR, collision := collR, alignment := alignR })
  else
    let celestialBodies := planets ++ sun.toList
    let upDirection := calculateUpDirection player.position planets
    let er := checkPlayerEnvironment st player.position planets
    let environment := er.1
    let player := { player with onGround := environment.onGround }
    let player := applyDrag environment deltaTime player
    let player := applyMovement environment controls camera deltaTime player
    let player := applyGravity environment celestialBodies deltaTime player
    let player := applyJetpack environment controls camera planets deltaTime player
    let player := applyDownThrusters environment controls camera planets deltaTime player
    let cr := applyCollision planets deltaTime player
    let alignR : AlignmentInfo :=
      { upDirection := upDirection, aligned := none,
        alignmentDistance := some alignmentDistance,
        alignmentSpeed := some alignmentSpeed }
    (cr.2, er.2,
     { environment := environment, collision := cr.1, alignment := alignR })

/-- Iterated physics ticks: `physicsIter … n` runs `updatePlayerPhysics`
`n` times with fixed inputs, threading the player and zone state. -/
def physicsIter (controls : ControlsState) (deltaTime : ℝ)
    (planets : List Planet) (sun : Option Planet) (camera : Camera)
    (gameState : GameState) : ℕ → PlayerState × ZoneState → PlayerState × ZoneState
  | 0, s => s
  | Nat.succ n, s =>
    let r := updatePlayerPhysics s.1 controls deltaTime planets sun camera
      gameState s.2
    physicsIter controls deltaTime planets sun camera gameState n (r.1, r.2.1)

/-- One step of the nearest-planet loop of
`PlayerController.alignWithSurface` (player.ts lines 812-832).  The
accumulator holds `(minDistance, escapeVelocity, gravityFactor)` for the
nearest planet so far, `none` standing for the initial
`(Infinity, 0, 0)` with no planet.  A planet whose geometry lacks a radius
propagates `NaN` and never wins the strict comparison. -/
def alignScanStep (pos : Vec3) (G : ℝ) (acc : Option (ℝ × ℝ × ℝ))
    (planet : Planet) : Option (ℝ × ℝ × ℝ) :=
  match planet.radius with
  | none => acc
  | some r =>
    let planetMass := r * 10
    let distance := max 0.1 (pos.distanceTo planet.position)
    let surfaceDistance := distance - r
    let planetEscapeVel := Real.sqrt (2 * G * planetMass / distance)
    let planetGravityFactor := G * planetMass / (distance * distance)
    match acc with
    | none => some (surfaceDistance, planetEscapeVel, planetGravityFactor)
    | some (m, e, g) =>
      if surfaceDistance < m then
        some (surfaceDistance, planetEscapeVel, planetGravityFactor)
      else some (m, e, g)

/-- The nearest-planet scan of `alignWithSurface` over the whole planet
list. -/
def alignScan (planets : List Planet) (pos : Vec3) (G : ℝ) :
    Option (ℝ × ℝ × ℝ) :=
  planets.foldl (alignScanStep pos G) none

/-- The raw alignment factor of `alignWithSurface` (player.ts lines
840-851): the gravity influence scaled into `[0,1]`, faded out linearly as
the speed ratio to the escape velocity passes `0.5`. -/
def alignFactorRaw (gravityFactor escapeVelocity velocityMagnitude : ℝ) : ℝ :=
  let alignFactor := min 1 (gravityFactor * 0.1)
  let velocityRatio := velocityMagnitude / max 0.1 escapeVelocity
  if velocityRatio > 0.5 then
    alignFactor * max 0 (1 - (velocityRatio - 0.5) * 2)
  else alignFactor

/-- The alignment factor computed by `alignWithSurface` (player.ts lines
805-859): `none` models the early return at line 835 (no planet, or nearest
surface farther than 500), and `onGround` forces the factor to 1. -/
def alignmentFactor (planets : List Planet) (pos velocity : Vec3)
    (onGround : Bool) (G : ℝ) : Option ℝ :=
  match alignScan planets pos G with
  | none => none
  | some (minDistance, escapeVelocity, gravityFactor) =>
    if minDistance > 500 then none
    else some (if onGround then 1
      else alignFactorRaw gravityFactor escapeVelocity velocity.length)

@[ext] theorem Vec3.ext (a b : Vec3) (hx : a.x = b.x) (hy : a.y = b.y)
    (hz : a.z = b.z) : a = b := by
  cases a; cases b; simp_all

theorem Vec3.lengthSq_nonneg (a : Vec3) : 0 ≤ a.lengthSq := by
  unfold Vec3.lengthSq Vec3.dot
  exact add_nonneg (add_nonneg (mul_self_nonneg _) (mul_self_nonneg _))
    (mul_self_nonneg _)

theorem Vec3.length_nonneg (a : Vec3) : 0 ≤ a.length := Real.sqrt_nonneg _

@[simp] theorem Vec3.add_zero (a : Vec3) : a.add Vec3.zero = a := by
  unfold Vec3.add Vec3.zero; ext <;> simp

@[simp] theorem Vec3.zero_add (a : Vec3) : Vec3.zero.add a = a := by
  unfold Vec3.add Vec3.zero; ext <;> simp

@[simp] theorem Vec3.smul_one (a : Vec3) : a.smul 1 = a := by
  unfold Vec3.smul; ext <;> simp

@[simp] theorem Vec3.smul_zero (a : Vec3) : a.smul 0 = Vec3.zero := by
  unfold Vec3.smul Vec3.zero; ext <;> simp

theorem Vec3.smul_smul (a : Vec3) (s t : ℝ) :
    (a.smul s).smul t = a.smul (s * t) := by
  unfold Vec3.smul; ext <;> dsimp <;> ring

theorem Vec3.add_sub_right (a v c : Vec3) : (a.add v).sub c = (a.sub c).add v := by
  unfold Vec3.add Vec3.sub; ext <;> dsimp <;> ring

theorem Vec3.add_self_smul (w : Vec3) (t : ℝ) :
    w.add (w.smul t) = w.smul (1 + t) := by
  unfold Vec3.add Vec3.smul; ext <;> dsimp <;> ring

theorem Vec3.add_smul_add (p v : Vec3) (a b : ℝ) :
    (p.add (v.smul a)).add (v.smul b) = p.add (v.smul (a + b)) := by
  unfold Vec3.add Vec3.smul; ext <;> dsimp <;> ring

theorem Vec3.length_smul (a : Vec3) (s : ℝ) :
    (a.smul s).length = |s| * a.length := by
  unfold Vec3.length Vec3.lengthSq Vec3.dot Vec3.smul
  dsimp
  rw [show a.x * s * (a.x * s) + a.y * s * (a.y * s) + a.z * s * (a.z * s)
      = s ^ 2 * (a.x * a.x + a.y * a.y + a.z * a.z) by ring]
  rw [Real.sqrt_mul (sq_nonneg s), Real.sqrt_sq_eq_abs]

@[simp] theorem Vec3.length_zero : Vec3.zero.length = 0 := by
  unfold Vec3.length Vec3.lengthSq Vec3.dot Vec3.zero
  simp

theorem Vec3.length_normalize (a : Vec3) (h : a.length ≠ 0) :
    a.normalize.length = 1 := by
  have hpos : 0 < a.length := lt_of_le_of_ne a.length_nonneg (Ne.symm h)
  unfold Vec3.normalize
  rw [if_neg h, Vec3.length_smul, abs_of_pos (one_div_pos.mpr hpos), one_div,
    inv_mul_cancel₀ h]

theorem Vec3.length_normalize_le_one (a : Vec3) : a.normalize.length ≤ 1 := by
  by_cases h : a.length = 0
  · unfold Vec3.normalize
    rw [if_pos h, h]; norm_num
  · rw [a.length_normalize h]

theorem Vec3.normalize_eq_smul (a : Vec3) (h : a.length ≠ 0) :
    a.normalize = a.smul (1 / a.length) := by
  unfold Vec3.normalize; rw [if_neg h]

/-- Square-root evaluation helper for concrete inputs. -/
theorem sqrt_eval {a b : ℝ} (hb : 0 ≤ b) (h : b * b = a) : Real.sqrt a = b := by
  rw [← h, Real.sqrt_mul_self hb]

/-- Distance along the x-axis, for evaluating the embedding at concrete
points. -/
theorem Vec3.distanceTo_xaxis (a b : ℝ) (h : b ≤ a) :
    Vec3.distanceTo ⟨a, 0, 0⟩ ⟨b, 0, 0⟩ = a - b := by
  unfold Vec3.distanceTo Vec3.length Vec3.lengthSq Vec3.dot Vec3.sub
  dsimp
  rw [show (0 : ℝ) - 0 = 0 by ring]
  rw [show (a - b) * (a - b) + 0 * 0 + 0 * 0 = (a - b) * (a - b) by ring]
  exact Real.sqrt_mul_self (by linarith)

/-- Length of an x-axis vector with nonnegative coordinate. -/
theorem Vec3.length_xaxis (s : ℝ) (h : 0 ≤ s) :
    (Vec3.mk s 0 0).length = s := by
  unfold Vec3.length Vec3.lengthSq Vec3.dot
  dsimp
  rw [show s * s + 0 * 0 + 0 * 0 = s * s by ring]
  exact Real.sqrt_mul_self h

/-- Nearest-planet scan over a one-planet list with a valid radius. -/
theorem getNearestPlanet_single (pos : Vec3) (p : Planet) (r : ℝ)
    (h : p.radius = some r) :
    getNearestPlanet pos [p] = some (p, pos.distanceTo p.position - r) := by
  simp [getNearestPlanet, nearestStep, h]

/-- The contribution of a single body to the gravity sum never exceeds 20 in
magnitude, for any query position, provided the body's radius (when present)
is nonnegative and the test mass is nonnegative. -/
theorem gravityContribution_length_le (pos : Vec3) (m : ℝ) (b : Planet)
    (hm : 0 ≤ m) (hr : ∀ r, b.radius = some r → 0 ≤ r) :
    (gravityContribution pos m b).length ≤ 20 := by
  unfold gravityContribution
  cases hb : b.radius with
  | none => rw [Vec3.length_zero]; norm_num
  | some r =>
    dsimp only
    by_cases h0 : r = 0
    · rw [if_pos h0, Vec3.length_zero]; norm_num
    · rw [if_neg h0]
      by_cases hd : pos.distanceTo b.position ≤ 0.1
      · rw [if_pos hd, Vec3.length_zero]; norm_num
      · rw [if_neg hd, Vec3.length_smul]
        have hbm : 0 ≤ (if b.isSun then (50 : ℝ) else r) := by
          split
          · norm_num
          · exact hr r hb
        have hforce : 0 ≤ gravitationalConstant *
            ((if b.isSun then (50 : ℝ) else r) * m) /
            (max (pos.distanceTo b.position) (r * 0.5) *
              max (pos.distanceTo b.position) (r * 0.5)) := by
          apply div_nonneg
          · exact mul_nonneg (by norm_num [gravitationalConstant])
              (mul_nonneg hbm hm)
          · exact mul_self_nonneg _
        have habs : |min (gravitationalConstant *
            ((if b.isSun then (50 : ℝ) else r) * m) /
            (max (pos.distanceTo b.position) (r * 0.5) *
              max (pos.distanceTo b.position) (r * 0.5))) 20| ≤ 20 := by
          rw [abs_of_nonneg (le_min hforce (by norm_num))]
          exact min_le_right _ _
        calc |min (gravitationalConstant *
              ((if b.isSun then (50 : ℝ) else r) * m) /
              (max (pos.distanceTo b.position) (r * 0.5) *
                max (pos.distanceTo b.position) (r * 0.5))) 20| *
              ((b.position.sub pos).normalize).length
            ≤ 20 * 1 := by
              exact mul_le_mul habs (Vec3.length_normalize_le_one _)
                (Vec3.length_nonneg _) (by norm_num)
          _ = 20 := by norm_num

/-- The gravity force over a one-element body list is that body's single
contribution. -/
theorem getGravityForce_single (pos : Vec3) (m : ℝ) (b : Planet) :
    getGravityForce pos [b] m = gravityContribution pos m b := by
  simp [getGravityForce]

/-- C3: every single body contributes at most 20 units of acceleration to
`getGravityForce` regardless of proximity, and consequently the total force
over a one-element body list has magnitude at most 20 (for the default unit
test mass; a body whose radius is present is assumed nonnegative, a body
without a radius contributes nothing). -/
theorem gravity_cap (pos : Vec3) (b : Planet)
    (hr : ∀ r, b.radius = some r → 0 ≤ r) :
    (gravityContribution pos 1 b).length ≤ 20 ∧
    (getGravityForce pos [b] 1).length ≤ 20 := by
  have h := gravityContribution_length_le pos 1 b (by norm_num) hr
  exact ⟨h, by rw [getGravityForce_single]; exact h⟩

/-- Witness for C3 at a concrete body of radius 1 and a position 0.05 away
from its center (closer than the 0.1 cutoff). -/
theorem gravity_cap_witness :
    (∀ r : ℝ, (Planet.mk ⟨0, 0, 0⟩ (some 1) false).radius = some r → 0 ≤ r) ∧
    ((gravityContribution ⟨0.05, 0, 0⟩ 1 (Planet.mk ⟨0, 0, 0⟩ (some 1) false)).length ≤ 20 ∧
     (getGravityForce ⟨0.05, 0, 0⟩ [Planet.mk ⟨0, 0, 0⟩ (some 1) false] 1).length ≤ 20) := by
  have hr : ∀ r : ℝ, (Planet.mk ⟨0, 0, 0⟩ (some 1) false).radius = some r → 0 ≤ r := by
    intro r h
    simp only [Option.some.injEq] at h
    simp [← h]
  exact ⟨hr, gravity_cap ⟨0.05, 0, 0⟩ (Planet.mk ⟨0, 0, 0⟩ (some 1) false) hr⟩

/-- C4: for a one-body list with a positive radius, and any position farther
from the center than half the radius, `getGravityForce` returns a
nonnegative multiple of the unit vector pointing from the position toward
the body center. -/
theorem gravity_symmetry (p : Vec3) (b : Planet) (r : ℝ)
    (hb : b.radius = some r) (hr : 0 < r)
    (hd : r * 0.5 < p.distanceTo b.position) :
    ∃ c, 0 ≤ c ∧
      getGravityForce p [b] 1 = ((b.position.sub p).normalize).smul c := by
  rw [getGravityForce_single]
  unfold gravityContribution
  rw [hb]
  dsimp only
  rw [if_neg (ne_of_gt hr)]
  by_cases hclose : p.distanceTo b.position ≤ 0.1
  · rw [if_pos hclose]
    exact ⟨0, le_refl 0, by rw [Vec3.smul_zero]⟩
  · rw [if_neg hclose]
    refine ⟨_, ?_, rfl⟩
    apply le_min ?_ (by norm_num)
    apply div_nonneg
    · apply mul_nonneg (by norm_num [gravitationalConstant])
      apply mul_nonneg ?_ (by norm_num)
      split
      · norm_num
      · exact le_of_lt hr
    · exact mul_self_nonneg _

/-- Witness for C4 at a body of radius 1 centered at the origin and the
position `(2,0,0)`. -/
theorem gravity_symmetry_witness :
    ((Planet.mk ⟨0, 0, 0⟩ (some 1) false).radius = some 1 ∧ (0 : ℝ) < 1 ∧
      (1 : ℝ) * 0.5 < Vec3.distanceTo ⟨2, 0, 0⟩ (Planet.mk ⟨0, 0, 0⟩ (some 1) false).position) ∧
    (∃ c, 0 ≤ c ∧
      getGravityForce ⟨2, 0, 0⟩ [Planet.mk ⟨0, 0, 0⟩ (some 1) false] 1 =
        (((Planet.mk ⟨0, 0, 0⟩ (some 1) false).position.sub ⟨2, 0, 0⟩).normalize).smul c) := by
  have hdist : Vec3.distanceTo ⟨2, 0, 0⟩ (Planet.mk ⟨0, 0, 0⟩ (some 1) false).position = 2 := by
    have := Vec3.distanceTo_xaxis 2 0 (by norm_num)
    simpa using this
  refine ⟨⟨rfl, by norm_num, by rw [hdist]; norm_num⟩, ?_⟩
  exact gravity_symmetry ⟨2, 0, 0⟩ (Planet.mk ⟨0, 0, 0⟩ (some 1) false) 1 rfl
    (by norm_num) (by rw [hdist]; norm_num)

/-- C10: `handlePlanetCollisions` ignores its `collisionRadius` argument
entirely — any two argument values give identical results on every input,
because the body uses the internal constant 0.5; and the value the caller
in `updatePlayerPhysics` passes, `this.collisionRadius`, is 2. -/
theorem collision_radius_unused :
    (∀ (pos vel : Vec3) (planets : List Planet) (r1 r2 : ℝ),
      handlePlanetCollisions pos vel planets r1 =
        handlePlanetCollisions pos vel planets r2) ∧
    collisionRadius = 2 :=
  ⟨fun _ _ _ _ _ => rfl, rfl⟩

/-- A body without a radius leaves the nearest-planet accumulator
untouched (its `NaN` distance never wins the comparison). -/
theorem nearestStep_invalid (pos : Vec3) (acc : Option (Planet × ℝ))
    (b : Planet) (hb : b.radius = none) : nearestStep pos acc b = acc := by
  simp [nearestStep, hb]

/-- Removing a radius-less body from the list does not change the
nearest-planet search. -/
theorem getNearestPlanet_skip (pos : Vec3) (b : Planet) (hb : b.radius = none)
    (l1 l2 : List Planet) :
    getNearestPlanet pos (l1 ++ b :: l2) = getNearestPlanet pos (l1 ++ l2) := by
  unfold getNearestPlanet
  rw [List.foldl_append, List.foldl_append, List.foldl_cons,
    nearestStep_invalid pos _ b hb]

/-- A radius-less body contributes the zero vector to the gravity sum. -/
theorem gravityContribution_invalid (pos : Vec3) (m : ℝ) (b : Planet)
    (hb : b.radius = none) : gravityContribution pos m b = Vec3.zero := by
  simp [gravityContribution, hb]

/-- Removing a radius-less body from the list does not change the gravity
sum. -/
theorem getGravityForce_skip (pos : Vec3) (m : ℝ) (b : Planet)
    (hb : b.radius = none) (l1 l2 : List Planet) :
    getGravityForce pos (l1 ++ b :: l2) m = getGravityForce pos (l1 ++ l2) m := by
  unfold getGravityForce
  rw [List.foldl_append, List.foldl_append, List.foldl_cons]
  congr 1
  rw [gravityContribution_invalid pos m b hb]
  exact Vec3.add_zero _

/-- Removing a radius-less body from the list does not change the collision
scan (its `NaN` surface distance fails the threshold test). -/
theorem collideScan_skip (pos vel : Vec3) (b : Planet) (hb : b.radius = none)
    (l1 l2 : List Planet) :
    collideScan pos vel (l1 ++ b :: l2) = collideScan pos vel (l1 ++ l2) := by
  induction l1 with
  | nil => simp only [List.nil_append, collideScan, hb]
  | cons a l1 ih =>
    simp only [List.cons_append, collideScan]
    cases ha : a.radius with
    | none => exact ih
    | some r =>
      dsimp only
      split_ifs with h h2
      · rfl
      · rfl
      · exact ih

/-- C9: a body whose geometry lacks a radius is treated as absent by every
computation — nearest-planet search, gravity accumulation, collision
resolution, and environment classification all return exactly what they
return on the list with that body removed (and, being total functions, they
never crash on it). -/
theorem invalid_body_skipped (b : Planet) (hb : b.radius = none)
    (l1 l2 : List Planet) (pos vel : Vec3) (m cr : ℝ) (st : ZoneState) :
    getNearestPlanet pos (l1 ++ b :: l2) = getNearestPlanet pos (l1 ++ l2) ∧
    getGravityForce pos (l1 ++ b :: l2) m = getGravityForce pos (l1 ++ l2) m ∧
    handlePlanetCollisions pos vel (l1 ++ b :: l2) cr =
      handlePlanetCollisions pos vel (l1 ++ l2) cr ∧
    checkPlayerEnvironment st pos (l1 ++ b :: l2) =
      checkPlayerEnvironment st pos (l1 ++ l2) := by
  refine ⟨getNearestPlanet_skip pos b hb l1 l2,
    getGravityForce_skip pos m b hb l1 l2, ?_, ?_⟩
  · unfold handlePlanetCollisions
    exact collideScan_skip pos vel b hb l1 l2
  · unfold checkPlayerEnvironment
    rw [getNearestPlanet_skip pos b hb l1 l2]

/-- Witness for C9: a radius-less body alone in the list behaves like the
empty list. -/
theorem invalid_body_skipped_witness :
    (Planet.mk ⟨1, 2, 3⟩ none true).radius = none ∧
    (getNearestPlanet Vec3.zero ([] ++ Planet.mk ⟨1, 2, 3⟩ none true :: []) =
        getNearestPlanet Vec3.zero ([] ++ []) ∧
      getGravityForce Vec3.zero ([] ++ Planet.mk ⟨1, 2, 3⟩ none true :: []) 1 =
        getGravityForce Vec3.zero ([] ++ []) 1 ∧
      handlePlanetCollisions Vec3.zero Vec3.zero
          ([] ++ Planet.mk ⟨1, 2, 3⟩ none true :: []) 2 =
        handlePlanetCollisions Vec3.zero Vec3.zero ([] ++ []) 2 ∧
      checkPlayerEnvironment ⟨none, 0⟩ Vec3.zero
          ([] ++ Planet.mk ⟨1, 2, 3⟩ none true :: []) =
        checkPlayerEnvironment ⟨none, 0⟩ Vec3.zero ([] ++ [])) :=
  ⟨rfl, invalid_body_skipped (Planet.mk ⟨1, 2, 3⟩ none true) rfl [] []
    Vec3.zero Vec3.zero 1 2 ⟨none, 0⟩⟩

/-- C1 (amended): if `handlePlanetCollisions` detects a collision on a
one-planet list (surface distance below the 0.5 threshold, position distinct
from the center, positive radius), the corrected position lies at surface
distance exactly `groundCollisionRadius`, which fails the strict `<` test,
so the second call reports `onGround = false` and applies exactly zero
further position and velocity correction (the avatar is at/above the
surface). -/
theorem collision_resolution_settles (pl : Planet) (r : ℝ) (pos vel : Vec3)
    (cr cr2 : ℝ) (hrad : pl.radius = some r) (hr : 0 < r)
    (hd : 0 < pos.distanceTo pl.position)
    (hcol : pos.distanceTo pl.position - r < groundCollisionRadius) :
    (handlePlanetCollisions pos vel [pl] cr).1.onGround = true ∧
    (handlePlanetCollisions pos vel [pl] cr).2.1.distanceTo pl.position
      = r + groundCollisionRadius ∧
    handlePlanetCollisions (handlePlanetCollisions pos vel [pl] cr).2.1
        (handlePlanetCollisions pos vel [pl] cr).2.2 [pl] cr2 =
      ({ onGround := false, collidedPlanet := none, surfaceNormal := none },
        (handlePlanetCollisions pos vel [pl] cr).2.1,
        (handlePlanetCollisions pos vel [pl] cr).2.2) := by
  have hd0 : pos.distanceTo pl.position ≠ 0 := ne_of_gt hd
  have hw : (pos.sub pl.position).length = pos.distanceTo pl.position := rfl
  have hdne : (pos.sub pl.position).length ≠ 0 := by rw [hw]; exact hd0
  have hnorm : (pos.sub pl.position).normalize
      = (pos.sub pl.position).smul (1 / pos.distanceTo pl.position) := by
    rw [Vec3.normalize_eq_smul _ hdne, hw]
  have hfirst : handlePlanetCollisions pos vel [pl] cr =
      ({ onGround := true, collidedPlanet := some pl,
          surfaceNormal := some ((pos.sub pl.position).normalize) },
        pos.add ((pos.sub pl.position).normalize.smul
          (groundCollisionRadius - (pos.distanceTo pl.position - r))),
        if vel.dot ((pos.sub pl.position).normalize) < 0 then
          (vel.sub ((pos.sub pl.position).normalize.smul
            (vel.dot ((pos.sub pl.position).normalize)))).smul 0.8
        else vel) := by
    unfold handlePlanetCollisions
    simp only [collideScan, hrad]
    rw [if_pos hcol]
  have hposdist : (pos.add ((pos.sub pl.position).normalize.smul
        (groundCollisionRadius - (pos.distanceTo pl.position - r)))).distanceTo
        pl.position = r + groundCollisionRadius := by
    have harg : 1 + 1 / pos.distanceTo pl.position *
        (groundCollisionRadius - (pos.distanceTo pl.position - r))
        = (r + groundCollisionRadius) / pos.distanceTo pl.position := by
      field_simp
      ring_nf
    have hnn : 0 ≤ (r + groundCollisionRadius) / pos.distanceTo pl.position := by
      apply div_nonneg ?_ (le_of_lt hd)
      norm_num [groundCollisionRadius]
      linarith
    calc (pos.add ((pos.sub pl.position).normalize.smul
          (groundCollisionRadius - (pos.distanceTo pl.position - r)))).distanceTo
          pl.position
        = ((pos.add ((pos.sub pl.position).normalize.smul
            (groundCollisionRadius - (pos.distanceTo pl.position - r)))).sub
            pl.position).length := rfl
      _ = ((pos.sub pl.position).add ((pos.sub pl.position).normalize.smul
            (groundCollisionRadius - (pos.distanceTo pl.position - r)))).length := by
          rw [Vec3.add_sub_right]
      _ = ((pos.sub pl.position).add (((pos.sub pl.position).smul
            (1 / pos.distanceTo pl.position)).smul
            (groundCollisionRadius - (pos.distanceTo pl.position - r)))).length := by
          rw [hnorm]
      _ = ((pos.sub pl.position).add ((pos.sub pl.position).smul
            (1 / pos.distanceTo pl.position *
              (groundCollisionRadius - (pos.distanceTo pl.position - r))))).length := by
          rw [Vec3.smul_smul]
      _ = ((pos.sub pl.position).smul (1 + 1 / pos.distanceTo pl.position *
            (groundCollisionRadius - (pos.distanceTo pl.position - r)))).length := by
          rw [Vec3.add_self_smul]
      _ = |1 + 1 / pos.distanceTo pl.position *
            (groundCollisionRadius - (pos.distanceTo pl.position - r))| *
            (pos.sub pl.position).length := Vec3.length_smul _ _
      _ = ((r + groundCollisionRadius) / pos.distanceTo pl.position) *
            pos.distanceTo pl.position := by
          rw [hw, harg, abs_of_nonneg hnn]
      _ = r + groundCollisionRadius := div_mul_cancel₀ _ hd0
  have hsecond : ∀ (p2 v2 : Vec3),
      p2.distanceTo pl.position = r + groundCollisionRadius →
      handlePlanetCollisions p2 v2 [pl] cr2 =
        ({ onGround := false, collidedPlanet := none, surfaceNormal := none },
          p2, v2) := by
    intro p2 v2 hp2
    unfold handlePlanetCollisions
    simp only [collideScan, hrad]
    rw [if_neg]
    rw [hp2]
    norm_num
  refine ⟨?_, ?_, ?_⟩
  · rw [hfirst]
  · rw [hfirst]
    exact hposdist
  · rw [hfirst]
    exact hsecond _ _ hposdist

/-- Witness for C1's amended theorem at a planet of radius 1 centered at
the origin and starting position `(1.2, 0, 0)`. -/
theorem collision_resolution_settles_witness :
    ((Planet.mk ⟨0, 0, 0⟩ (some 1) false).radius = some 1 ∧ (0 : ℝ) < 1 ∧
      0 < Vec3.distanceTo ⟨1.2, 0, 0⟩ (Planet.mk ⟨0, 0, 0⟩ (some 1) false).position ∧
      Vec3.distanceTo ⟨1.2, 0, 0⟩ (Planet.mk ⟨0, 0, 0⟩ (some 1) false).position - 1
        < groundCollisionRadius) ∧
    ((handlePlanetCollisions ⟨1.2, 0, 0⟩ Vec3.zero
        [Planet.mk ⟨0, 0, 0⟩ (some 1) false] 2).1.onGround = true ∧
      (handlePlanetCollisions ⟨1.2, 0, 0⟩ Vec3.zero
        [Planet.mk ⟨0, 0, 0⟩ (some 1) false] 2).2.1.distanceTo
        (Planet.mk ⟨0, 0, 0⟩ (some 1) false).position = 1 + groundCollisionRadius ∧
      handlePlanetCollisions
          (handlePlanetCollisions ⟨1.2, 0, 0⟩ Vec3.zero
            [Planet.mk ⟨0, 0, 0⟩ (some 1) false] 2).2.1
          (handlePlanetCollisions ⟨1.2, 0, 0⟩ Vec3.zero
            [Planet.mk ⟨0, 0, 0⟩ (some 1) false] 2).2.2
          [Planet.mk ⟨0, 0, 0⟩ (some 1) false] 2 =
        ({ onGround := false, collidedPlanet := none, surfaceNormal := none },
          (handlePlanetCollisions ⟨1.2, 0, 0⟩ Vec3.zero
            [Planet.mk ⟨0, 0, 0⟩ (some 1) false] 2).2.1,
          (handlePlanetCollisions ⟨1.2, 0, 0⟩ Vec3.zero
            [Planet.mk ⟨0, 0, 0⟩ (some 1) false] 2).2.2)) := by
  have hdist : Vec3.distanceTo ⟨1.2, 0, 0⟩
      (Planet.mk ⟨0, 0, 0⟩ (some 1) false).position = 1.2 := by
    have h := Vec3.distanceTo_xaxis 1.2 0 (by norm_num)
    simpa using h
  refine ⟨⟨rfl, by norm_num, ?_, ?_⟩, ?_⟩
  · rw [hdist]; norm_num
  · rw [hdist]; norm_num [groundCollisionRadius]
  · exact collision_resolution_settles (Planet.mk ⟨0, 0, 0⟩ (some 1) false) 1
      ⟨1.2, 0, 0⟩ Vec3.zero 2 2 rfl (by norm_num)
      (by rw [hdist]; norm_num)
      (by rw [hdist]; norm_num [groundCollisionRadius])

/-- Counterexample to C1 as stated: at a planet of radius 1 centered at the
origin, position `(1.2, 0, 0)` and zero velocity, the first call detects a
collision (`onGround = true`) and corrects the position to `(1.5, 0, 0)`,
but the second call on the corrected state returns `onGround = false` — not
`onGround = true` as the claim asserts — because the corrected surface
distance 0.5 fails the strict `< 0.5` test. -/
theorem collision_idempotence_counterexample :
    (handlePlanetCollisions ⟨1.2, 0, 0⟩ Vec3.zero
      [Planet.mk ⟨0, 0, 0⟩ (some 1) false] 2).1.onGround = true ∧
    (handlePlanetCollisions
      (handlePlanetCollisions ⟨1.2, 0, 0⟩ Vec3.zero
        [Planet.mk ⟨0, 0, 0⟩ (some 1) false] 2).2.1
      (handlePlanetCollisions ⟨1.2, 0, 0⟩ Vec3.zero
        [Planet.mk ⟨0, 0, 0⟩ (some 1) false] 2).2.2
      [Planet.mk ⟨0, 0, 0⟩ (some 1) false] 2).1.onGround = false := by
  have hsub : Vec3.sub ⟨1.2, 0, 0⟩ ⟨0, 0, 0⟩ = ⟨1.2, 0, 0⟩ := by
    unfold Vec3.sub; ext <;> norm_num
  have hlen12 : (Vec3.mk 1.2 0 0).length = 1.2 :=
    Vec3.length_xaxis 1.2 (by norm_num)
  have hdist : Vec3.distanceTo ⟨1.2, 0, 0⟩ ⟨0, 0, 0⟩ = 1.2 := by
    unfold Vec3.distanceTo; rw [hsub, hlen12]
  have hnorm : (Vec3.mk 1.2 0 0).normalize = ⟨1, 0, 0⟩ := by
    rw [Vec3.normalize_eq_smul _ (by rw [hlen12]; norm_num), hlen12]
    unfold Vec3.smul; ext <;> norm_num
  have hdot : Vec3.zero.dot ⟨1, 0, 0⟩ = 0 := by
    unfold Vec3.dot Vec3.zero; norm_num
  have hfirst : handlePlanetCollisions ⟨1.2, 0, 0⟩ Vec3.zero
      [Planet.mk ⟨0, 0, 0⟩ (some 1) false] 2 =
      ({ onGround := true,
          collidedPlanet := some (Planet.mk ⟨0, 0, 0⟩ (some 1) false),
          surfaceNormal := some ⟨1, 0, 0⟩ }, ⟨1.5, 0, 0⟩, Vec3.zero) := by
    unfold handlePlanetCollisions
    simp only [collideScan]
    rw [hdist, if_pos (by norm_num [groundCollisionRadius])]
    rw [hsub, hnorm, hdot, if_neg (by norm_num)]
    refine Prod.ext rfl (Prod.ext ?_ rfl)
    show Vec3.add ⟨1.2, 0, 0⟩ (Vec3.smul ⟨1, 0, 0⟩ (groundCollisionRadius - (1.2 - 1))) = ⟨1.5, 0, 0⟩
    unfold Vec3.add Vec3.smul
    ext <;> norm_num [groundCollisionRadius]
  have hdist2 : Vec3.distanceTo ⟨1.5, 0, 0⟩ ⟨0, 0, 0⟩ = 1.5 := by
    have hsub2 : Vec3.sub ⟨1.5, 0, 0⟩ ⟨0, 0, 0⟩ = ⟨1.5, 0, 0⟩ := by
      unfold Vec3.sub; ext <;> norm_num
    unfold Vec3.distanceTo
    rw [hsub2, Vec3.length_xaxis 1.5 (by norm_num)]
  have hsecond : handlePlanetCollisions ⟨1.5, 0, 0⟩ Vec3.zero
      [Planet.mk ⟨0, 0, 0⟩ (some 1) false] 2 =
      ({ onGround := false, collidedPlanet := none, surfaceNormal := none },
        ⟨1.5, 0, 0⟩, Vec3.zero) := by
    unfold handlePlanetCollisions
    simp only [collideScan]
    rw [hdist2, if_neg (by norm_num [groundCollisionRadius])]
  rw [hfirst]
  exact ⟨rfl, by rw [hsecond]⟩

/-- Counterexample to C2 as stated: on the empty planet list the early
return of `checkPlayerEnvironment` does report the deep-space zone with
`onGround = false`, but it omits `transitionFactor` entirely (the TypeScript
optional field stays `undefined`, which callers default to 0 via `?? 0`), so
the returned transition factor is not 1. -/
theorem env_empty_counterexample :
    (checkPlayerEnvironment ⟨none, 0⟩ Vec3.zero []).1.atmosphereZone =
      Zone.deepSpace ∧
    (checkPlayerEnvironment ⟨none, 0⟩ Vec3.zero []).1.onGround = false ∧
    (checkPlayerEnvironment ⟨none, 0⟩ Vec3.zero []).1.transitionFactor = none ∧
    (checkPlayerEnvironment ⟨none, 0⟩ Vec3.zero []).1.transitionFactor ≠
      some 1 := by
  refine ⟨rfl, rfl, rfl, ?_⟩
  intro h
  exact Option.noConfusion h

/-- C2 (amended): with an empty planet list `checkPlayerEnvironment`
reports the deep-space zone, `onGround = false` and an absent (undefined)
`transitionFactor`, leaving the stored zone state untouched; with a
non-empty list whose nearest planet (of nonnegative radius) lies beyond the
outer-atmosphere threshold, at a surface distance at least the ground
threshold and with no stored previous zone, it reports the deep-space zone,
`transitionFactor = 1` and `onGround = false`. -/
theorem env_deep_space (st : ZoneState) (pos : Vec3) :
    (checkPlayerEnvironment st pos [] =
      ({ inSpace := true, inTransition := none, inAtmosphere := none,
         onGround := false, nearest := none, atmosphereZone := Zone.deepSpace,
         transitionFactor := none }, st)) ∧
    (∀ (planets : List Planet) (pl : Planet) (d r : ℝ),
      st.lastZone = none →
      getNearestPlanet pos planets = some (pl, d) →
      pl.radius = some r → 0 ≤ r →
      r * outerAtmosphereRatio < d → groundThreshold ≤ d →
      (checkPlayerEnvironment st pos planets).1.atmosphereZone = Zone.deepSpace ∧
      (checkPlayerEnvironment st pos planets).1.transitionFactor = some 1 ∧
      (checkPlayerEnvironment st pos planets).1.onGround = false) := by
  constructor
  · rfl
  · intro planets pl d r hlast hnear hrad hr0 hout hged
    unfold checkPlayerEnvironment
    rw [hnear]
    dsimp only
    rw [hrad]
    dsimp only [Option.getD_some]
    rw [hlast]
    have hno : ¬ d < groundThreshold := not_lt.mpr hged
    have hong : onGroundCheck (none : Option Zone) d = false := by
      unfold onGroundCheck
      rw [if_neg (by simp)]
      simpa using hno
    have hnotatm : ¬ d ≤ r * atmosphereRatio := by
      push_neg
      calc r * atmosphereRatio ≤ r * outerAtmosphereRatio := by
            apply mul_le_mul_of_nonneg_left ?_ hr0
            norm_num [atmosphereRatio, outerAtmosphereRatio]
        _ < d := hout
    have hnotlow : ¬ d < r * atmosphereRatio * 0.3 := by
      push_neg
      calc r * atmosphereRatio * 0.3 ≤ r * atmosphereRatio := by
            have h1 : 0 ≤ r * atmosphereRatio := by
              apply mul_nonneg hr0
              norm_num [atmosphereRatio]
            linarith
        _ ≤ r * outerAtmosphereRatio := by
            apply mul_le_mul_of_nonneg_left ?_ hr0
            norm_num [atmosphereRatio, outerAtmosphereRatio]
        _ ≤ d := le_of_lt hout
    have hnotup : ¬ (d ≤ r * outerAtmosphereRatio ∧ d > r * atmosphereRatio) := by
      intro h
      exact absurd h.1 (not_le.mpr hout)
    have hprop : proposedZone (none : Option Zone) d r = Zone.deepSpace := by
      unfold proposedZone
      dsimp only
      rw [if_neg (by rw [hong]; simp)]
      rw [if_neg hnotlow]
      rw [if_neg (by simpa using hnotatm)]
      rw [if_neg (by simpa using hnotup)]
    have hdelay : applyZoneDelay st Zone.deepSpace =
        (Zone.deepSpace, ⟨some Zone.deepSpace, 0⟩) := by
      unfold applyZoneDelay
      rw [hlast]
    rw [hprop, hdelay]
    refine ⟨rfl, ?_, by rw [hong]⟩
    dsimp only
    rw [if_neg (by simpa using hnotup), if_pos (by simpa using hout)]

/-- Witness for C2's amended theorem: the empty list at the origin, and a
planet of radius 100 at the origin viewed from `(300, 0, 0)` (surface
distance 200, beyond the outer threshold 150). -/
theorem env_deep_space_witness :
    (checkPlayerEnvironment ⟨none, 0⟩ Vec3.zero [] =
      ({ inSpace := true, inTransition := none, inAtmosphere := none,
         onGround := false, nearest := none, atmosphereZone := Zone.deepSpace,
         transitionFactor := none }, ⟨none, 0⟩)) ∧
    ((ZoneState.mk none 0).lastZone = none ∧
      getNearestPlanet ⟨300, 0, 0⟩ [Planet.mk ⟨0, 0, 0⟩ (some 100) false] =
        some (Planet.mk ⟨0, 0, 0⟩ (some 100) false, 200) ∧
      (100 : ℝ) * outerAtmosphereRatio < 200 ∧ groundThreshold ≤ 200) ∧
    ((checkPlayerEnvironment ⟨none, 0⟩ ⟨300, 0, 0⟩
        [Planet.mk ⟨0, 0, 0⟩ (some 100) false]).1.atmosphereZone =
        Zone.deepSpace ∧
      (checkPlayerEnvironment ⟨none, 0⟩ ⟨300, 0, 0⟩
        [Planet.mk ⟨0, 0, 0⟩ (some 100) false]).1.transitionFactor = some 1 ∧
      (checkPlayerEnvironment ⟨none, 0⟩ ⟨300, 0, 0⟩
        [Planet.mk ⟨0, 0, 0⟩ (some 100) false]).1.onGround = false) := by
  have hnear : getNearestPlanet ⟨300, 0, 0⟩
      [Planet.mk ⟨0, 0, 0⟩ (some 100) false] =
      some (Planet.mk ⟨0, 0, 0⟩ (some 100) false, 200) := by
    rw [getNearestPlanet_single _ _ 100 rfl]
    have hdist : Vec3.distanceTo ⟨300, 0, 0⟩
        (Planet.mk ⟨0, 0, 0⟩ (some 100) false).position = 300 := by
      have h := Vec3.distanceTo_xaxis 300 0 (by norm_num)
      simpa using h
    rw [hdist]
    norm_num
  refine ⟨(env_deep_space ⟨none, 0⟩ Vec3.zero).1,
    ⟨rfl, hnear, by norm_num [outerAtmosphereRatio],
      by norm_num [groundThreshold]⟩, ?_⟩
  exact (env_deep_space ⟨none, 0⟩ ⟨300, 0, 0⟩).2
    [Planet.mk ⟨0, 0, 0⟩ (some 100) false]
    (Planet.mk ⟨0, 0, 0⟩ (some 100) false) 200 100 rfl hnear rfl
    (by norm_num) (by norm_num [outerAtmosphereRatio])
    (by norm_num [groundThreshold])

/-- On a list with a nearest planet, `checkPlayerEnvironment` reports the
zone produced by the switch-delay logic applied to the proposed zone, and
stores the state the delay logic produces. -/
theorem checkEnv_zone_state (st : ZoneState) (pos : Vec3)
    (planets : List Planet) (pl : Planet) (d r : ℝ)
    (hn : getNearestPlanet pos planets = some (pl, d))
    (hr : pl.radius = some r) :
    (checkPlayerEnvironment st pos planets).1.atmosphereZone =
      (applyZoneDelay st (proposedZone st.lastZone d r)).1 ∧
    (checkPlayerEnvironment st pos planets).2 =
      (applyZoneDelay st (proposedZone st.lastZone d r)).2 := by
  unfold checkPlayerEnvironment
  rw [hn]
  dsimp only
  rw [hr]
  exact ⟨rfl, rfl⟩

/-- A proposed zone differing from the stored zone is rejected while the
bumped counter stays below 3: the stored zone is returned and the counter
increments. -/
theorem applyZoneDelay_reject (z z' : Zone) (c : ℕ) (hne : z' ≠ z)
    (hc : c + 1 < 3) :
    applyZoneDelay ⟨some z, c⟩ z' = (z, ⟨some z, c + 1⟩) := by
  unfold applyZoneDelay
  dsimp only
  rw [if_pos (Ne.symm hne), if_pos hc]

/-- A differing proposed zone is accepted once the bumped counter reaches 3:
the proposal is returned and the counter resets. -/
theorem applyZoneDelay_accept (z z' : Zone) (c : ℕ) (hne : z' ≠ z)
    (hc : ¬ c + 1 < 3) :
    applyZoneDelay ⟨some z, c⟩ z' = (z', ⟨some z', 0⟩) := by
  unfold applyZoneDelay
  dsimp only
  rw [if_pos (Ne.symm hne), if_neg hc]

/-- C5 (amended): with a stored zone `z`, a delay counter at 0 and a fixed
position proposing a zone `z' ≠ z`, the first two calls keep returning `z`
while the counter increments, and the third call returns `z'` and resets the
counter — the change is accepted on the third consecutive differing tick
(the counter counts ticks whose proposal differs from the stored zone, not
ticks of one persistent proposal).  Moreover, on any call with a nearest
planet, a returned zone differing from the stored zone requires an incoming
counter of at least 2 and resets it to 0, and the counter never grows by
more than 1 per call — so the reported zone changes at most once per window
of 3 or more consecutive ticks. -/
theorem zone_switch_delay :
    (∀ (pos : Vec3) (planets : List Planet) (pl : Planet) (d r : ℝ)
      (z z' : Zone),
      getNearestPlanet pos planets = some (pl, d) → pl.radius = some r →
      proposedZone (some z) d r = z' → z' ≠ z →
      let e1 := checkPlayerEnvironment ⟨some z, 0⟩ pos planets
      let e2 := checkPlayerEnvironment e1.2 pos planets
      let e3 := checkPlayerEnvironment e2.2 pos planets
      e1.1.atmosphereZone = z ∧ e1.2 = ⟨some z, 1⟩ ∧
      e2.1.atmosphereZone = z ∧ e2.2 = ⟨some z, 2⟩ ∧
      e3.1.atmosphereZone = z' ∧ e3.2 = ⟨some z', 0⟩) ∧
    (∀ (st : ZoneState) (pos : Vec3) (planets : List Planet) (pl : Planet)
      (d r : ℝ) (z : Zone),
      st.lastZone = some z →
      getNearestPlanet pos planets = some (pl, d) → pl.radius = some r →
      ((checkPlayerEnvironment st pos planets).1.atmosphereZone ≠ z →
        2 ≤ st.zoneSwitchDelay ∧
        (checkPlayerEnvironment st pos planets).2.zoneSwitchDelay = 0) ∧
      (checkPlayerEnvironment st pos planets).2.zoneSwitchDelay ≤
        st.zoneSwitchDelay + 1) := by
  constructor
  · intro pos planets pl d r z z' hn hr hprop hne
    have h1 := checkEnv_zone_state ⟨some z, 0⟩ pos planets pl d r hn hr
    rw [show (ZoneState.mk (some z) 0).lastZone = some z from rfl, hprop,
      applyZoneDelay_reject z z' 0 hne (by norm_num)] at h1
    have h2 := checkEnv_zone_state ⟨some z, 1⟩ pos planets pl d r hn hr
    rw [show (ZoneState.mk (some z) 1).lastZone = some z from rfl, hprop,
      applyZoneDelay_reject z z' 1 hne (by norm_num)] at h2
    have h3 := checkEnv_zone_state ⟨some z, 2⟩ pos planets pl d r hn hr
    rw [show (ZoneState.mk (some z) 2).lastZone = some z from rfl, hprop,
      applyZoneDelay_accept z z' 2 hne (by norm_num)] at h3
    dsimp only
    rw [h1.2]
    rw [h2.2]
    exact ⟨h1.1, rfl, h2.1, rfl, h3.1, h3.2⟩
  · intro st pos planets pl d r z hlast hn hr
    have h := checkEnv_zone_state st pos planets pl d r hn hr
    constructor
    · intro hchange
      rw [h.1] at hchange
      rw [h.2]
      unfold applyZoneDelay at hchange ⊢
      rw [hlast] at hchange ⊢
      dsimp only at hchange ⊢
      by_cases hzp : z ≠ proposedZone (some z) d r
      · rw [if_pos hzp] at hchange ⊢
        by_cases hc : st.zoneSwitchDelay + 1 < 3
        · rw [if_pos hc] at hchange
          exact absurd rfl hchange
        · rw [if_neg hc] at hchange ⊢
          exact ⟨by omega, rfl⟩
      · rw [if_neg hzp] at hchange
        push_neg at hzp
        exact absurd hzp.symm hchange
    · rw [h.2]
      unfold applyZoneDelay
      rw [hlast]
      dsimp only
      split_ifs with h1 h2
      · exact le_refl _
      · exact Nat.zero_le _
      · exact Nat.zero_le _

/-- Nearest planet from `(110,0,0)` for a radius-100 planet at the origin:
surface distance 10. -/
theorem nearest_planet_110 :
    getNearestPlanet ⟨110, 0, 0⟩ [Planet.mk ⟨0, 0, 0⟩ (some 100) false] =
      some (Planet.mk ⟨0, 0, 0⟩ (some 100) false, 10) := by
  rw [getNearestPlanet_single _ _ 100 rfl]
  have hdist : Vec3.distanceTo ⟨110, 0, 0⟩
      (Planet.mk ⟨0, 0, 0⟩ (some 100) false).position = 110 := by
    have h := Vec3.distanceTo_xaxis 110 0 (by norm_num)
    simpa using h
  rw [hdist]
  norm_num

/-- Nearest planet from `(150,0,0)` for a radius-100 planet at the origin:
surface distance 50. -/
theorem nearest_planet_150 :
    getNearestPlanet ⟨150, 0, 0⟩ [Planet.mk ⟨0, 0, 0⟩ (some 100) false] =
      some (Planet.mk ⟨0, 0, 0⟩ (some 100) false, 50) := by
  rw [getNearestPlanet_single _ _ 100 rfl]
  have hdist : Vec3.distanceTo ⟨150, 0, 0⟩
      (Planet.mk ⟨0, 0, 0⟩ (some 100) false).position = 150 := by
    have h := Vec3.distanceTo_xaxis 150 0 (by norm_num)
    simpa using h
  rw [hdist]
  norm_num

/-- At surface distance 10 of a radius-100 planet with stored zone
deep-space, the proposed zone is low-atmosphere. -/
theorem proposed_low_110 :
    proposedZone (some Zone.deepSpace) 10 100 = Zone.lowAtmosphere := by
  have hog : onGroundCheck (some Zone.deepSpace) (10 : ℝ) = false := by
    unfold onGroundCheck
    rw [if_neg (by simp)]
    simp only [decide_eq_false_iff_not]
    norm_num [groundThreshold]
  unfold proposedZone
  dsimp only
  rw [if_neg (by rw [hog]; simp)]
  rw [if_pos (by norm_num [atmosphereRatio])]
  rw [if_neg (by simp)]

/-- At surface distance 50 of a radius-100 planet with stored zone
deep-space, the proposed zone is atmosphere. -/
theorem proposed_atm_150 :
    proposedZone (some Zone.deepSpace) 50 100 = Zone.atmosphere := by
  have hog : onGroundCheck (some Zone.deepSpace) (50 : ℝ) = false := by
    unfold onGroundCheck
    rw [if_neg (by simp)]
    simp only [decide_eq_false_iff_not]
    norm_num [groundThreshold]
  unfold proposedZone
  dsimp only
  rw [if_neg (by rw [hog]; simp)]
  rw [if_neg (by norm_num [atmosphereRatio])]
  rw [if_pos (by simp only [decide_eq_true_eq]; norm_num [atmosphereRatio])]

/-- Counterexample to C5 as stated: with stored zone deep-space and counter
0, three consecutive calls at positions proposing low-atmosphere, then
atmosphere, then low-atmosphere make the reported zone change to
low-atmosphere on the third call, although low-atmosphere was not the
proposed zone for 3 consecutive ticks (the middle tick proposed atmosphere):
the delay counter counts ticks whose proposal differs from the stored zone,
not the persistence of one proposal. -/
theorem zone_switch_counterexample :
    let pl := Planet.mk ⟨0, 0, 0⟩ (some 100) false
    let e1 := checkPlayerEnvironment ⟨some Zone.deepSpace, 0⟩ ⟨110, 0, 0⟩ [pl]
    let e2 := checkPlayerEnvironment e1.2 ⟨150, 0, 0⟩ [pl]
    let e3 := checkPlayerEnvironment e2.2 ⟨110, 0, 0⟩ [pl]
    (e1.1.atmosphereZone = Zone.deepSpace ∧
      e2.1.atmosphereZone = Zone.deepSpace ∧
      e3.1.atmosphereZone = Zone.lowAtmosphere) ∧
    proposedZone (some Zone.deepSpace) 50 100 = Zone.atmosphere ∧
    Zone.atmosphere ≠ Zone.lowAtmosphere := by
  dsimp only
  have h1 := checkEnv_zone_state ⟨some Zone.deepSpace, 0⟩ ⟨110, 0, 0⟩
    [Planet.mk ⟨0, 0, 0⟩ (some 100) false]
    (Planet.mk ⟨0, 0, 0⟩ (some 100) false) 10 100 nearest_planet_110 rfl
  rw [show (ZoneState.mk (some Zone.deepSpace) 0).lastZone = some Zone.deepSpace
      from rfl, proposed_low_110,
    applyZoneDelay_reject Zone.deepSpace Zone.lowAtmosphere 0 (by decide)
      (by norm_num)] at h1
  have h2 := checkEnv_zone_state ⟨some Zone.deepSpace, 1⟩ ⟨150, 0, 0⟩
    [Planet.mk ⟨0, 0, 0⟩ (some 100) false]
    (Planet.mk ⟨0, 0, 0⟩ (some 100) false) 50 100 nearest_planet_150 rfl
  rw [show (ZoneState.mk (some Zone.deepSpace) 1).lastZone = some Zone.deepSpace
      from rfl, proposed_atm_150,
    applyZoneDelay_reject Zone.deepSpace Zone.atmosphere 1 (by decide)
      (by norm_num)] at h2
  have h3 := checkEnv_zone_state ⟨some Zone.deepSpace, 2⟩ ⟨110, 0, 0⟩
    [Planet.mk ⟨0, 0, 0⟩ (some 100) false]
    (Planet.mk ⟨0, 0, 0⟩ (some 100) false) 10 100 nearest_planet_110 rfl
  rw [show (ZoneState.mk (some Zone.deepSpace) 2).lastZone = some Zone.deepSpace
      from rfl, proposed_low_110,
    applyZoneDelay_accept Zone.deepSpace Zone.lowAtmosphere 2 (by decide)
      (by norm_num)] at h3
  rw [h1.2]
  rw [h2.2]
  exact ⟨⟨h1.1, h2.1, h3.1⟩, proposed_atm_150, by decide⟩

/-- Witness for C5's amended theorem: the trace part at the radius-100
planet seen from `(110,0,0)` with stored zone deep-space (proposal
low-atmosphere), and the characterization part at an incoming counter of 5. -/
theorem zone_switch_delay_witness :
    (getNearestPlanet ⟨110, 0, 0⟩ [Planet.mk ⟨0, 0, 0⟩ (some 100) false] =
        some (Planet.mk ⟨0, 0, 0⟩ (some 100) false, 10) ∧
      (Planet.mk ⟨0, 0, 0⟩ (some 100) false).radius = some 100 ∧
      proposedZone (some Zone.deepSpace) 10 100 = Zone.lowAtmosphere ∧
      Zone.lowAtmosphere ≠ Zone.deepSpace ∧
      (ZoneState.mk (some Zone.deepSpace) 5).lastZone = some Zone.deepSpace) ∧
    (let e1 := checkPlayerEnvironment ⟨some Zone.deepSpace, 0⟩ ⟨110, 0, 0⟩
        [Planet.mk ⟨0, 0, 0⟩ (some 100) false]
      let e2 := checkPlayerEnvironment e1.2 ⟨110, 0, 0⟩
        [Planet.mk ⟨0, 0, 0⟩ (some 100) false]
      let e3 := checkPlayerEnvironment e2.2 ⟨110, 0, 0⟩
        [Planet.mk ⟨0, 0, 0⟩ (some 100) false]
      e1.1.atmosphereZone = Zone.deepSpace ∧ e1.2 = ⟨some Zone.deepSpace, 1⟩ ∧
      e2.1.atmosphereZone = Zone.deepSpace ∧ e2.2 = ⟨some Zone.deepSpace, 2⟩ ∧
      e3.1.atmosphereZone = Zone.lowAtmosphere ∧
      e3.2 = ⟨some Zone.lowAtmosphere, 0⟩) ∧
    (((checkPlayerEnvironment ⟨some Zone.deepSpace, 5⟩ ⟨110, 0, 0⟩
          [Planet.mk ⟨0, 0, 0⟩ (some 100) false]).1.atmosphereZone ≠
          Zone.deepSpace →
        2 ≤ (ZoneState.mk (some Zone.deepSpace) 5).zoneSwitchDelay ∧
        (checkPlayerEnvironment ⟨some Zone.deepSpace, 5⟩ ⟨110, 0, 0⟩
          [Planet.mk ⟨0, 0, 0⟩ (some 100) false]).2.zoneSwitchDelay = 0) ∧
      (checkPlayerEnvironment ⟨some Zone.deepSpace, 5⟩ ⟨110, 0, 0⟩
          [Planet.mk ⟨0, 0, 0⟩ (some 100) false]).2.zoneSwitchDelay ≤
        (ZoneState.mk (some Zone.deepSpace) 5).zoneSwitchDelay + 1) := by
  refine ⟨⟨nearest_planet_110, rfl, proposed_low_110, by decide, rfl⟩, ?_, ?_⟩
  · exact zone_switch_delay.1 ⟨110, 0, 0⟩
      [Planet.mk ⟨0, 0, 0⟩ (some 100) false]
      (Planet.mk ⟨0, 0, 0⟩ (some 100) false) 10 100 Zone.deepSpace
      Zone.lowAtmosphere nearest_planet_110 rfl proposed_low_110 (by decide)
  · exact zone_switch_delay.2 ⟨some Zone.deepSpace, 5⟩ ⟨110, 0, 0⟩
      [Planet.mk ⟨0, 0, 0⟩ (some 100) false]
      (Planet.mk ⟨0, 0, 0⟩ (some 100) false) 10 100 Zone.deepSpace rfl
      nearest_planet_110 rfl

@[simp] theorem updateStamina_position (p : PlayerState) (c : ControlsState)
    (dt : ℝ) : (updateStamina p c dt).position = p.position := by
  unfold updateStamina; split_ifs <;> rfl

@[simp] theorem updateStamina_velocity (p : PlayerState) (c : ControlsState)
    (dt : ℝ) : (updateStamina p c dt).velocity = p.velocity := by
  unfold updateStamina; split_ifs <;> rfl

@[simp] theorem updateStamina_onGround (p : PlayerState) (c : ControlsState)
    (dt : ℝ) : (updateStamina p c dt).onGround = p.onGround := by
  unfold updateStamina; split_ifs <;> rfl

@[simp] theorem updateStamina_fuel (p : PlayerState) (c : ControlsState)
    (dt : ℝ) : (updateStamina p c dt).fuel = p.fuel := by
  unfold updateStamina; split_ifs <;> rfl

@[simp] theorem updateStamina_maxStamina (p : PlayerState) (c : ControlsState)
    (dt : ℝ) : (updateStamina p c dt).maxStamina = p.maxStamina := by
  unfold updateStamina; split_ifs <;> rfl

/-- With only the forward input held the camera-relative move direction in
free flight is the camera's forward vector. -/
theorem calculateMoveDirection_forward (controls : ControlsState)
    (camera : Camera) (inSpace : Bool)
    (hf : controls.moveForward = true) (hb : controls.moveBackward = false)
    (hl : controls.moveLeft = false) (hr : controls.moveRight = false) :
    calculateMoveDirection controls camera inSpace false = camera.forward := by
  unfold calculateMoveDirection
  simp [hf, hb, hl, hr]

/-- The noclip branch with only forward input and a unit camera direction:
one tick teleports by `moveSpeed * 100 * deltaTime` along the view
direction, zeroes the velocity and clears `onGround`. -/
theorem noclipUpdate_forward (p : PlayerState) (controls : ControlsState)
    (camera : Camera) (dt : ℝ)
    (hf : controls.moveForward = true) (hb : controls.moveBackward = false)
    (hl : controls.moveLeft = false) (hr : controls.moveRight = false)
    (hs : controls.sprint = false) (hu : camera.forward.length = 1) :
    noclipUpdate p controls camera dt =
      { p with
        position := p.position.add (camera.forward.smul (moveSpeed * 100 * dt)),
        velocity := Vec3.zero, onGround := false } := by
  unfold noclipUpdate
  rw [calculateMoveDirection_forward controls camera true hf hb hl hr]
  dsimp only
  rw [if_pos (by rw [hu]; norm_num)]
  rw [hs]
  rw [if_neg (by simp)]
  rw [Vec3.normalize_eq_smul _ (by rw [hu]; norm_num), hu, Vec3.smul_smul]
  rw [show (1 : ℝ) / 1 * (moveSpeed * 100 * dt) = moveSpeed * 100 * dt by
    norm_num]

/-- One `updatePlayerPhysics` tick in noclip mode with only forward input:
kinematic advance, zero velocity, `onGround = false`, untouched zone
state. -/
theorem updatePlayerPhysics_noclip_step (p : PlayerState)
    (controls : ControlsState) (dt : ℝ) (planets : List Planet)
    (sun : Option Planet) (camera : Camera) (gameState : GameState)
    (st : ZoneState) (hn : gameState.noclip = true)
    (hf : controls.moveForward = true) (hb : controls.moveBackward = false)
    (hl : controls.moveLeft = false) (hr : controls.moveRight = false)
    (hs : controls.sprint = false) (hu : camera.forward.length = 1) :
    (updatePlayerPhysics p controls dt planets sun camera gameState st).1 =
      { updateStamina p controls dt with
        position := p.position.add (camera.forward.smul (moveSpeed * 100 * dt)),
        velocity := Vec3.zero, onGround := false } ∧
    (updatePlayerPhysics p controls dt planets sun camera gameState st).2.1 =
      st := by
  unfold updatePlayerPhysics
  rw [hn]
  rw [if_pos rfl]
  rw [noclipUpdate_forward _ controls camera dt hf hb hl hr hs hu]
  constructor
  · dsimp only
    rw [updateStamina_position]
  · rfl

/-- C6: in noclip mode with only forward input held, a fixed unit camera
direction and fixed `deltaTime`, after `N` ticks the position has advanced
by exactly `moveSpeed * 100 * deltaTime * N` (the noclip speed times elapsed
time) along the view direction, and after every tick the velocity is the
zero vector and `onGround = false` — gravity, drag and collision are never
applied. -/
theorem noclip_bypass (controls : ControlsState) (camera : Camera)
    (gameState : GameState) (dt : ℝ) (planets : List Planet)
    (sun : Option Planet) (p0 : PlayerState) (st0 : ZoneState)
    (hn : gameState.noclip = true)
    (hf : controls.moveForward = true) (hb : controls.moveBackward = false)
    (hl : controls.moveLeft = false) (hr : controls.moveRight = false)
    (hs : controls.sprint = false) (hu : camera.forward.length = 1) (N : ℕ) :
    (physicsIter controls dt planets sun camera gameState N (p0, st0)).1.position
      = p0.position.add (camera.forward.smul (moveSpeed * 100 * dt * N)) ∧
    (1 ≤ N →
      (physicsIter controls dt planets sun camera gameState N
        (p0, st0)).1.velocity = Vec3.zero ∧
      (physicsIter controls dt planets sun camera gameState N
        (p0, st0)).1.onGround = false) := by
  induction N generalizing p0 with
  | zero =>
    constructor
    · show p0.position = p0.position.add (camera.forward.smul
        (moveSpeed * 100 * dt * (0 : ℕ)))
      rw [Nat.cast_zero, mul_zero, Vec3.smul_zero, Vec3.add_zero]
    · intro h
      exact absurd h (by norm_num)
  | succ n ih =>
    have hstep := updatePlayerPhysics_noclip_step p0 controls dt planets sun
      camera gameState st0 hn hf hb hl hr hs hu
    have hiter : physicsIter controls dt planets sun camera gameState (n + 1)
        (p0, st0) = physicsIter controls dt planets sun camera gameState n
        (({ updateStamina p0 controls dt with
            position := p0.position.add
              (camera.forward.smul (moveSpeed * 100 * dt)),
            velocity := Vec3.zero, onGround := false } : PlayerState), st0) := by
      show physicsIter controls dt planets sun camera gameState n _ = _
      rw [hstep.1, hstep.2]
    rw [hiter]
    have ihp := ih { updateStamina p0 controls dt with
      position := p0.position.add (camera.forward.smul (moveSpeed * 100 * dt)),
      velocity := Vec3.zero, onGround := false }
    constructor
    · rw [ihp.1]
      show (p0.position.add (camera.forward.smul (moveSpeed * 100 * dt))).add
        (camera.forward.smul (moveSpeed * 100 * dt * (n : ℕ))) = _
      rw [Vec3.add_smul_add]
      congr 1
      push_cast
      ring_nf
    · intro hge
      rcases Nat.eq_zero_or_pos n with h0 | hpos
      · subst h0
        exact ⟨rfl, rfl⟩
      · exact ihp.2 hpos

/-- Witness for C6: two noclip ticks of one second starting at rest at the
origin with the camera looking along the x-axis. -/
theorem noclip_bypass_witness :
    ((GameState.mk true).noclip = true ∧
      (ControlsState.mk true false false false false false false false).moveForward
        = true ∧
      (ControlsState.mk true false false false false false false false).sprint
        = false ∧
      (Camera.mk ⟨1, 0, 0⟩ ⟨0, 1, 0⟩).forward.length = 1) ∧
    ((physicsIter (ControlsState.mk true false false false false false false false)
        1 [] none (Camera.mk ⟨1, 0, 0⟩ ⟨0, 1, 0⟩) (GameState.mk true) 2
        (PlayerState.mk Vec3.zero Vec3.zero false 100 100 100 25 15 false,
          ⟨none, 0⟩)).1.position =
      (PlayerState.mk Vec3.zero Vec3.zero false 100 100 100 25 15 false).position.add
        ((Camera.mk ⟨1, 0, 0⟩ ⟨0, 1, 0⟩).forward.smul (moveSpeed * 100 * 1 * (2 : ℕ))) ∧
      (1 ≤ 2 →
        (physicsIter (ControlsState.mk true false false false false false false false)
          1 [] none (Camera.mk ⟨1, 0, 0⟩ ⟨0, 1, 0⟩) (GameState.mk true) 2
          (PlayerState.mk Vec3.zero Vec3.zero false 100 100 100 25 15 false,
            ⟨none, 0⟩)).1.velocity = Vec3.zero ∧
        (physicsIter (ControlsState.mk true false false false false false false false)
          1 [] none (Camera.mk ⟨1, 0, 0⟩ ⟨0, 1, 0⟩) (GameState.mk true) 2
          (PlayerState.mk Vec3.zero Vec3.zero false 100 100 100 25 15 false,
            ⟨none, 0⟩)).1.onGround = false)) := by
  have hu : (Camera.mk ⟨1, 0, 0⟩ ⟨0, 1, 0⟩).forward.length = 1 := by
    have h := Vec3.length_xaxis 1 (by norm_num)
    simpa using h
  exact ⟨⟨rfl, rfl, rfl, hu⟩,
    noclip_bypass (ControlsState.mk true false false false false false false false)
      (Camera.mk ⟨1, 0, 0⟩ ⟨0, 1, 0⟩) (GameState.mk true) 1 [] none
      (PlayerState.mk Vec3.zero Vec3.zero false 100 100 100 25 15 false)
      ⟨none, 0⟩ rfl rfl rfl rfl rfl rfl hu 2⟩

/-- At or above the escape velocity the raw alignment factor is exactly
zero. -/
theorem alignFactorRaw_zero (g esc s : ℝ) (hesc : 0.1 ≤ esc) (hs : esc ≤ s) :
    alignFactorRaw g esc s = 0 := by
  have hpos : 0 < esc := lt_of_lt_of_le (by norm_num) hesc
  unfold alignFactorRaw
  dsimp only
  rw [max_eq_right hesc]
  have hr1 : 1 ≤ s / esc := (one_le_div hpos).mpr hs
  rw [if_pos (by linarith)]
  rw [max_eq_left (by linarith : 1 - (s / esc - 0.5) * 2 ≤ 0)]
  rw [mul_zero]

/-- Between half the escape velocity and the escape velocity the raw
alignment factor is strictly decreasing in the speed (for positive gravity
influence). -/
theorem alignFactorRaw_strict (g esc s1 s2 : ℝ) (hg : 0 < g)
    (hesc : 0.1 ≤ esc) (h1 : esc / 2 ≤ s1) (h12 : s1 < s2) (h2 : s2 ≤ esc) :
    alignFactorRaw g esc s2 < alignFactorRaw g esc s1 := by
  have hpos : 0 < esc := lt_of_lt_of_le (by norm_num) hesc
  have hbase : 0 < min 1 (g * 0.1) := lt_min (by norm_num) (by linarith)
  have hr1l : 1 / 2 ≤ s1 / esc := by
    rw [le_div_iff₀ hpos]; linarith
  have hr12 : s1 / esc < s2 / esc := by gcongr
  have hr2u : s2 / esc ≤ 1 := (div_le_one hpos).mpr h2
  unfold alignFactorRaw
  dsimp only
  rw [max_eq_right hesc]
  have hr2g : s2 / esc > 0.5 := by linarith
  rw [if_pos hr2g]
  rw [max_eq_right (by linarith : (0 : ℝ) ≤ 1 - (s2 / esc - 0.5) * 2)]
  by_cases hcase : s1 / esc > 0.5
  · rw [if_pos hcase]
    rw [max_eq_right (by linarith : (0 : ℝ) ≤ 1 - (s1 / esc - 0.5) * 2)]
    apply mul_lt_mul_of_pos_left ?_ hbase
    linarith
  · rw [if_neg hcase]
    calc min 1 (g * 0.1) * (1 - (s2 / esc - 0.5) * 2)
        < min 1 (g * 0.1) * 1 := by
          apply mul_lt_mul_of_pos_left (by linarith) hbase
      _ = min 1 (g * 0.1) := mul_one _

/-- C7: for a fixed planet list, position and gravitational constant whose
alignment scan finds a nearest planet within 500 units with positive gravity
influence and escape velocity at least the 0.1 floor, the alignment factor
computed by `alignWithSurface` for an airborne avatar is strictly decreasing
in the avatar's speed on the interval from half the escape velocity up to
the escape velocity, and equals 0 for every speed at or above the escape
velocity. -/
theorem escape_velocity_suppression (planets : List Planet) (pos : Vec3)
    (G m esc g : ℝ) (hscan : alignScan planets pos G = some (m, esc, g))
    (hm : ¬ m > 500) (hg : 0 < g) (hesc : 0.1 ≤ esc) :
    (∀ s1 s2 : ℝ, esc / 2 ≤ s1 → s1 < s2 → s2 ≤ esc →
      ∃ f1 f2, alignmentFactor planets pos ⟨s1, 0, 0⟩ false G = some f1 ∧
        alignmentFactor planets pos ⟨s2, 0, 0⟩ false G = some f2 ∧ f2 < f1) ∧
    (∀ s : ℝ, esc ≤ s →
      alignmentFactor planets pos ⟨s, 0, 0⟩ false G = some 0) := by
  have heval : ∀ s : ℝ, 0 ≤ s →
      alignmentFactor planets pos ⟨s, 0, 0⟩ false G =
        some (alignFactorRaw g esc s) := by
    intro s hs
    unfold alignmentFactor
    rw [hscan]
    dsimp only
    rw [if_neg hm]
    rw [Vec3.length_xaxis s hs]
    rw [if_neg (by simp)]
  have hesc0 : (0 : ℝ) < esc := lt_of_lt_of_le (by norm_num) hesc
  constructor
  · intro s1 s2 hs1 h12 hs2
    refine ⟨alignFactorRaw g esc s1, alignFactorRaw g esc s2,
      heval s1 (by linarith), heval s2 (by linarith),
      alignFactorRaw_strict g esc s1 s2 hg hesc hs1 h12 hs2⟩
  · intro s hs
    rw [heval s (by linarith), alignFactorRaw_zero g esc s hesc hs]

/-- Concrete alignment scan: a radius-10 planet at the origin seen from
`(20,0,0)` yields surface distance 10, escape velocity `√1000` and gravity
factor 25 (with the gravitational constant 100). -/
theorem alignScan_example :
    alignScan [Planet.mk ⟨0, 0, 0⟩ (some 10) false] ⟨20, 0, 0⟩ 100 =
      some (10, Real.sqrt 1000, 25) := by
  unfold alignScan
  rw [List.foldl_cons, List.foldl_nil]
  unfold alignScanStep
  dsimp only
  have hdist : Vec3.distanceTo ⟨20, 0, 0⟩
      (Planet.mk ⟨0, 0, 0⟩ (some 10) false).position = 20 := by
    have h := Vec3.distanceTo_xaxis 20 0 (by norm_num)
    simpa using h
  rw [hdist, max_eq_right (by norm_num)]
  norm_num

/-- Witness for C7 at the radius-10 planet: `√1000` is the local escape
velocity, and the factor strictly drops from speed `√1000 / 2` to speed
`√1000`, where it is exactly 0. -/
theorem escape_velocity_suppression_witness :
    (alignScan [Planet.mk ⟨0, 0, 0⟩ (some 10) false] ⟨20, 0, 0⟩ 100 =
        some (10, Real.sqrt 1000, 25) ∧
      ¬ (10 : ℝ) > 500 ∧ (0 : ℝ) < 25 ∧ (0.1 : ℝ) ≤ Real.sqrt 1000) ∧
    (∃ f1 f2,
      alignmentFactor [Planet.mk ⟨0, 0, 0⟩ (some 10) false] ⟨20, 0, 0⟩
        ⟨Real.sqrt 1000 / 2, 0, 0⟩ false 100 = some f1 ∧
      alignmentFactor [Planet.mk ⟨0, 0, 0⟩ (some 10) false] ⟨20, 0, 0⟩
        ⟨Real.sqrt 1000, 0, 0⟩ false 100 = some f2 ∧ f2 < f1) ∧
    alignmentFactor [Planet.mk ⟨0, 0, 0⟩ (some 10) false] ⟨20, 0, 0⟩
      ⟨Real.sqrt 1000, 0, 0⟩ false 100 = some 0 := by
  have h1000 : (0 : ℝ) < Real.sqrt 1000 := Real.sqrt_pos.mpr (by norm_num)
  have hesc : (0.1 : ℝ) ≤ Real.sqrt 1000 := by
    calc (0.1 : ℝ) ≤ 1 := by norm_num
      _ = Real.sqrt 1 := Real.sqrt_one.symm
      _ ≤ Real.sqrt 1000 := Real.sqrt_le_sqrt (by norm_num)
  have h := escape_velocity_suppression
    [Planet.mk ⟨0, 0, 0⟩ (some 10) false] ⟨20, 0, 0⟩ 100 10
    (Real.sqrt 1000) 25 alignScan_example (by norm_num) (by norm_num) hesc
  refine ⟨⟨alignScan_example, by norm_num, by norm_num, hesc⟩, ?_,
    h.2 (Real.sqrt 1000) (le_refl _)⟩
  exact h.1 (Real.sqrt 1000 / 2) (Real.sqrt 1000) (le_refl _)
    (half_lt_self h1000) (le_refl _)

@[simp] theorem applyDrag_fuel (env : EnvironmentResult) (dt : ℝ)
    (p : PlayerState) : (applyDrag env dt p).fuel = p.fuel := rfl

@[simp] theorem applyDrag_stamina (env : EnvironmentResult) (dt : ℝ)
    (p : PlayerState) : (applyDrag env dt p).stamina = p.stamina := rfl

@[simp] theorem applyDrag_maxStamina (env : EnvironmentResult) (dt : ℝ)
    (p : PlayerState) : (applyDrag env dt p).maxStamina = p.maxStamina := rfl

@[simp] theorem applyMovement_fuel (env : EnvironmentResult)
    (c : ControlsState) (cam : Camera) (dt : ℝ) (p : PlayerState) :
    (applyMovement env c cam dt p).fuel = p.fuel := by
  unfold applyMovement; dsimp only; split_ifs <;> rfl

@[simp] theorem applyMovement_stamina (env : EnvironmentResult)
    (c : ControlsState) (cam : Camera) (dt : ℝ) (p : PlayerState) :
    (applyMovement env c cam dt p).stamina = p.stamina := by
  unfold applyMovement; dsimp only; split_ifs <;> rfl

@[simp] theorem applyMovement_maxStamina (env : EnvironmentResult)
    (c : ControlsState) (cam : Camera) (dt : ℝ) (p : PlayerState) :
    (applyMovement env c cam dt p).maxStamina = p.maxStamina := by
  unfold applyMovement; dsimp only; split_ifs <;> rfl

@[simp] theorem applyGravity_fuel (env : EnvironmentResult)
    (bodies : List Planet) (dt : ℝ) (p : PlayerState) :
    (applyGravity env bodies dt p).fuel = p.fuel := by
  unfold applyGravity; split_ifs <;> rfl

@[simp] theorem applyGravity_stamina (env : EnvironmentResult)
    (bodies : List Planet) (dt : ℝ) (p : PlayerState) :
    (applyGravity env bodies dt p).stamina = p.stamina := by
  unfold applyGravity; split_ifs <;> rfl

@[simp] theorem applyGravity_maxStamina (env : EnvironmentResult)
    (bodies : List Planet) (dt : ℝ) (p : PlayerState) :
    (applyGravity env bodies dt p).maxStamina = p.maxStamina := by
  unfold applyGravity; split_ifs <;> rfl

@[simp] theorem applyJetpack_stamina (env : EnvironmentResult)
    (c : ControlsState) (cam : Camera) (planets : List Planet) (dt : ℝ)
    (p : PlayerState) : (applyJetpack env c cam planets dt p).stamina =
      p.stamina := by
  unfold applyJetpack; split_ifs <;> rfl

@[simp] theorem applyJetpack_maxStamina (env : EnvironmentResult)
    (c : ControlsState) (cam : Camera) (planets : List Planet) (dt : ℝ)
    (p : PlayerState) : (applyJetpack env c cam planets dt p).maxStamina =
      p.maxStamina := by
  unfold applyJetpack; split_ifs <;> rfl

@[simp] theorem applyDownThrusters_stamina (env : EnvironmentResult)
    (c : ControlsState) (cam : Camera) (planets : List Planet) (dt : ℝ)
    (p : PlayerState) : (applyDownThrusters env c cam planets dt p).stamina =
      p.stamina := by
  unfold applyDownThrusters; split_ifs <;> rfl

@[simp] theorem applyDownThrusters_maxStamina (env : EnvironmentResult)
    (c : ControlsState) (cam : Camera) (planets : List Planet) (dt : ℝ)
    (p : PlayerState) :
    (applyDownThrusters env c cam planets dt p).maxStamina = p.maxStamina := by
  unfold applyDownThrusters; split_ifs <;> rfl

@[simp] theorem applyCollision_fuel (planets : List Planet) (dt : ℝ)
    (p : PlayerState) : (applyCollision planets dt p).2.fuel = p.fuel := by
  unfold applyCollision
  dsimp only
  split_ifs with h
  · cases hsn : (handlePlanetCollisions p.position p.velocity planets
        collisionRadius).1.surfaceNormal with
    | none => rfl
    | some n => rfl
  · rfl

@[simp] theorem applyCollision_stamina (planets : List Planet) (dt : ℝ)
    (p : PlayerState) : (applyCollision planets dt p).2.stamina = p.stamina := by
  unfold applyCollision
  dsimp only
  split_ifs with h
  · cases hsn : (handlePlanetCollisions p.position p.velocity planets
        collisionRadius).1.surfaceNormal with
    | none => rfl
    | some n => rfl
  · rfl

@[simp] theorem applyCollision_maxStamina (planets : List Planet) (dt : ℝ)
    (p : PlayerState) :
    (applyCollision planets dt p).2.maxStamina = p.maxStamina := by
  unfold applyCollision
  dsimp only
  split_ifs with h
  · cases hsn : (handlePlanetCollisions p.position p.velocity planets
        collisionRadius).1.surfaceNormal with
    | none => rfl
    | some n => rfl
  · rfl

@[simp] theorem noclipUpdate_fuel (p : PlayerState) (c : ControlsState)
    (cam : Camera) (dt : ℝ) : (noclipUpdate p c cam dt).fuel = p.fuel := by
  unfold noclipUpdate; dsimp only; split_ifs <;> rfl

@[simp] theorem noclipUpdate_stamina (p : PlayerState) (c : ControlsState)
    (cam : Camera) (dt : ℝ) : (noclipUpdate p c cam dt).stamina = p.stamina := by
  unfold noclipUpdate; dsimp only; split_ifs <;> rfl

@[simp] theorem noclipUpdate_maxStamina (p : PlayerState) (c : ControlsState)
    (cam : Camera) (dt : ℝ) :
    (noclipUpdate p c cam dt).maxStamina = p.maxStamina := by
  unfold noclipUpdate; dsimp only; split_ifs <;> rfl

/-- `updateStamina` keeps the stamina within `[0, maxStamina]` for
nonnegative rates and time step. -/
theorem updateStamina_stamina_bounds (p : PlayerState) (c : ControlsState)
    (dt : ℝ) (hdt : 0 ≤ dt) (hd : 0 ≤ p.staminaDrainRate)
    (hr : 0 ≤ p.staminaRechargeRate) (h0 : 0 ≤ p.stamina)
    (h1 : p.stamina ≤ p.maxStamina) :
    0 ≤ (updateStamina p c dt).stamina ∧
    (updateStamina p c dt).stamina ≤ p.maxStamina := by
  have hmax0 : 0 ≤ p.maxStamina := le_trans h0 h1
  have hdd : 0 ≤ p.staminaDrainRate * dt := mul_nonneg hd hdt
  have hrr : 0 ≤ p.staminaRechargeRate * dt := mul_nonneg hr hdt
  unfold updateStamina
  refine ⟨?_, ?_⟩ <;> split_ifs <;> (try dsimp only) <;> (try split_ifs) <;>
    linarith

/-- The jetpack block never produces negative fuel. -/
theorem applyJetpack_fuel_nonneg (env : EnvironmentResult)
    (c : ControlsState) (cam : Camera) (planets : List Planet) (dt : ℝ)
    (p : PlayerState) (hf : 0 ≤ p.fuel) :
    0 ≤ (applyJetpack env c cam planets dt p).fuel := by
  unfold applyJetpack
  split_ifs with h1
  · dsimp only
    split_ifs with h2
    · exact le_rfl
    · exact le_of_not_lt h2
  · exact hf

/-- The down-thruster block never produces negative fuel. -/
theorem applyDownThrusters_fuel_nonneg (env : EnvironmentResult)
    (c : ControlsState) (cam : Camera) (planets : List Planet) (dt : ℝ)
    (p : PlayerState) (hf : 0 ≤ p.fuel) :
    0 ≤ (applyDownThrusters env c cam planets dt p).fuel := by
  unfold applyDownThrusters
  split_ifs with h1
  · dsimp only
    split_ifs with h2
    · exact le_rfl
    · exact le_of_not_lt h2
  · exact hf

/-- With the jetpack held, one unit of fuel and a tick longer than the
1/20-second burn time, the jetpack block clamps the fuel to exactly 0. -/
theorem applyJetpack_fuel_clamp (env : EnvironmentResult)
    (c : ControlsState) (cam : Camera) (planets : List Planet) (dt : ℝ)
    (p : PlayerState) (hj : c.jetpack = true) (hf : p.fuel = 1)
    (hdt : 1 / 20 < dt) :
    (applyJetpack env c cam planets dt p).fuel = 0 := by
  unfold applyJetpack
  rw [if_pos ⟨hj, by rw [hf]; norm_num⟩]
  dsimp only
  rw [hf]
  rw [if_pos (by linarith)]

/-- With the fuel already at 0 the down-thruster block leaves it at 0. -/
theorem applyDownThrusters_fuel_zero (env : EnvironmentResult)
    (c : ControlsState) (cam : Camera) (planets : List Planet) (dt : ℝ)
    (p : PlayerState) (hf : p.fuel = 0) :
    (applyDownThrusters env c cam planets dt p).fuel = 0 := by
  unfold applyDownThrusters
  rw [if_neg (by rintro ⟨h1, h2⟩; rw [hf] at h2; exact lt_irrefl 0 h2)]
  exact hf

/-- C8: a full `updatePlayerPhysics` tick with nonnegative `deltaTime`,
nonnegative stamina rates, fuel at least 0 and stamina within
`[0, maxStamina]` leaves the fuel at least 0 and the stamina within
`[0, maxStamina]`; and in particular, outside noclip with the jetpack held,
fuel exactly 1 and `deltaTime > 1/20` (the drain rate being 20 per second),
the resulting fuel is exactly 0. -/
theorem fuel_stamina_clamped (player : PlayerState) (controls : ControlsState)
    (dt : ℝ) (planets : List Planet) (sun : Option Planet) (camera : Camera)
    (gameState : GameState) (st : ZoneState)
    (hdt : 0 ≤ dt) (hfuel : 0 ≤ player.fuel) (h0 : 0 ≤ player.stamina)
    (h1 : player.stamina ≤ player.maxStamina)
    (hd : 0 ≤ player.staminaDrainRate) (hr : 0 ≤ player.staminaRechargeRate) :
    (0 ≤ (updatePlayerPhysics player controls dt planets sun camera gameState
        st).1.fuel ∧
      0 ≤ (updatePlayerPhysics player controls dt planets sun camera gameState
        st).1.stamina ∧
      (updatePlayerPhysics player controls dt planets sun camera gameState
        st).1.stamina ≤
      (updatePlayerPhysics player controls dt planets sun camera gameState
        st).1.maxStamina) ∧
    (gameState.noclip = false → controls.jetpack = true → player.fuel = 1 →
      1 / 20 < dt →
      (updatePlayerPhysics player controls dt planets sun camera gameState
        st).1.fuel = 0) := by
  have hsb := updateStamina_stamina_bounds player controls dt hdt hd hr h0 h1
  cases hnc : gameState.noclip with
  | true =>
    unfold updatePlayerPhysics
    rw [hnc, if_pos rfl]
    dsimp only
    refine ⟨⟨?_, ?_, ?_⟩, ?_⟩
    · rw [noclipUpdate_fuel, updateStamina_fuel]
      exact hfuel
    · rw [noclipUpdate_stamina]
      exact hsb.1
    · rw [noclipUpdate_stamina, noclipUpdate_maxStamina,
        updateStamina_maxStamina]
      exact hsb.2
    · intro hfalse
      exact absurd hfalse (by simp)
  | false =>
    unfold updatePlayerPhysics
    rw [hnc, if_neg (by simp)]
    dsimp only
    refine ⟨⟨?_, ?_, ?_⟩, ?_⟩
    · rw [applyCollision_fuel]
      apply applyDownThrusters_fuel_nonneg
      apply applyJetpack_fuel_nonneg
      rw [applyGravity_fuel, applyMovement_fuel, applyDrag_fuel]
      dsimp only
      rw [updateStamina_fuel]
      exact hfuel
    · rw [applyCollision_stamina, applyDownThrusters_stamina,
        applyJetpack_stamina, applyGravity_stamina, applyMovement_stamina,
        applyDrag_stamina]
      dsimp only
      exact hsb.1
    · rw [applyCollision_stamina, applyDownThrusters_stamina,
        applyJetpack_stamina, applyGravity_stamina, applyMovement_stamina,
        applyDrag_stamina, applyCollision_maxStamina,
        applyDownThrusters_maxStamina, applyJetpack_maxStamina,
        applyGravity_maxStamina, applyMovement_maxStamina,
        applyDrag_maxStamina]
      dsimp only
      rw [updateStamina_maxStamina]
      exact hsb.2
    · intro _ hj hf1 hdt20
      rw [applyCollision_fuel]
      apply applyDownThrusters_fuel_zero
      apply applyJetpack_fuel_clamp _ _ _ _ _ _ hj ?_ hdt20
      rw [applyGravity_fuel, applyMovement_fuel, applyDrag_fuel]
      dsimp only
      rw [updateStamina_fuel]
      exact hf1

/-- Witness for C8: a concrete tick of one second with the jetpack held,
fuel 1, stamina 50 of 100, no planets and no noclip. -/
theorem fuel_stamina_clamped_witness :
    ((0 : ℝ) ≤ 1 ∧
      0 ≤ (PlayerState.mk Vec3.zero Vec3.zero false 1 50 100 25 15 false).fuel ∧
      0 ≤ (PlayerState.mk Vec3.zero Vec3.zero false 1 50 100 25 15 false).stamina ∧
      (PlayerState.mk Vec3.zero Vec3.zero false 1 50 100 25 15 false).stamina ≤
        (PlayerState.mk Vec3.zero Vec3.zero false 1 50 100 25 15 false).maxStamina ∧
      (GameState.mk false).noclip = false ∧
      (ControlsState.mk false false false false false true false false).jetpack
        = true ∧
      (PlayerState.mk Vec3.zero Vec3.zero false 1 50 100 25 15 false).fuel = 1 ∧
      (1 : ℝ) / 20 < 1) ∧
    ((0 ≤ (updatePlayerPhysics
        (PlayerState.mk Vec3.zero Vec3.zero false 1 50 100 25 15 false)
        (ControlsState.mk false false false false false true false false) 1 []
        none (Camera.mk ⟨1, 0, 0⟩ ⟨0, 1, 0⟩) (GameState.mk false)
        ⟨none, 0⟩).1.fuel ∧
      0 ≤ (updatePlayerPhysics
        (PlayerState.mk Vec3.zero Vec3.zero false 1 50 100 25 15 false)
        (ControlsState.mk false false false false false true false false) 1 []
        none (Camera.mk ⟨1, 0, 0⟩ ⟨0, 1, 0⟩) (GameState.mk false)
        ⟨none, 0⟩).1.stamina ∧
      (updatePlayerPhysics
        (PlayerState.mk Vec3.zero Vec3.zero false 1 50 100 25 15 false)
        (ControlsState.mk false false false false false true false false) 1 []
        none (Camera.mk ⟨1, 0, 0⟩ ⟨0, 1, 0⟩) (GameState.mk false)
        ⟨none, 0⟩).1.stamina ≤
      (updatePlayerPhysics
        (PlayerState.mk Vec3.zero Vec3.zero false 1 50 100 25 15 false)
        (ControlsState.mk false false false false false true false false) 1 []
        none (Camera.mk ⟨1, 0, 0⟩ ⟨0, 1, 0⟩) (GameState.mk false)
        ⟨none, 0⟩).1.maxStamina) ∧
      (updatePlayerPhysics
        (PlayerState.mk Vec3.zero Vec3.zero false 1 50 100 25 15 false)
        (ControlsState.mk false false false false false true false false) 1 []
        none (Camera.mk ⟨1, 0, 0⟩ ⟨0, 1, 0⟩) (GameState.mk false)
        ⟨none, 0⟩).1.fuel = 0) := by
  have h := fuel_stamina_clamped
    (PlayerState.mk Vec3.zero Vec3.zero false 1 50 100 25 15 false)
    (ControlsState.mk false false false false false true false false) 1 []
    none (Camera.mk ⟨1, 0, 0⟩ ⟨0, 1, 0⟩) (GameState.mk false) ⟨none, 0⟩
    (by norm_num) (by norm_num) (by norm_num) (by norm_num) (by norm_num)
    (by norm_num)
  exact ⟨⟨by norm_num, by norm_num, by norm_num, by norm_num, rfl, rfl, rfl,
    by norm_num⟩, h.1, h.2 rfl rfl rfl (by norm_num)⟩

end

end Planetoids
